import Mathlib

/-!
Verification development for the LCZ (Local Climate Zone) classifier
in `morph_streamlit.py`.  The core functions (`parse_bounds`,
`value_in_spec`, `range_distance`, `score_class`, `best_matches`,
`infer_lcz_from_TH`, `infer_lcz_from_TR`, `prefer_water_with_AL`,
`classify_flow`) are shallowly embedded below.

Modelling conventions:
  * Python strings are `List Char` (`Str`); literals are written via
    `str "..."`.
  * Python floats are modelled exactly by `PyFloat`, decimal
    fixed-point numbers `mant / 10 ^ dexp`.  Every number this program
    manipulates is a decimal literal or is obtained from decimals by
    `+`, `-`, `abs`, `max` and comparisons, on which this exact
    representation agrees with the source's arithmetic.  Comparisons
    are by value (`ple`/`plt`/`peq`), as for Python floats.
  * A Python exception is the `.error ()` case of `Except Unit`;
    `float(s)` on an unparseable string raises, which the embedding
    propagates wherever the source has no `try`/`except`.
  * `None` results are `Option.none` inside the `.ok` payload.
-/

deriving instance DecidableEq for Except

/-- Exact decimal model of the Python floats occurring in this
program: the value is `mant / 10 ^ dexp`. -/
structure PyFloat where
  mant : Int
  dexp : Nat
deriving DecidableEq, Repr

/-- Short constructor: `pf m e` is the number `m / 10^e`. -/
def pf (m : Int) (e : Nat) : PyFloat := ⟨m, e⟩

/-- Rational value of a `PyFloat`. -/
def toRat (x : PyFloat) : ℚ := (x.mant : ℚ) / 10 ^ x.dexp

/-- Float addition. -/
def padd (a b : PyFloat) : PyFloat :=
  ⟨a.mant * 10 ^ b.dexp + b.mant * 10 ^ a.dexp, a.dexp + b.dexp⟩

/-- Float negation. -/
def pneg (a : PyFloat) : PyFloat := ⟨-a.mant, a.dexp⟩

/-- Float subtraction. -/
def psub (a b : PyFloat) : PyFloat := padd a (pneg b)

/-- Float absolute value (`abs`). -/
def pabs (a : PyFloat) : PyFloat := ⟨|a.mant|, a.dexp⟩

/-- Float comparison `a <= b` (by value). -/
def ple (a b : PyFloat) : Bool := a.mant * 10 ^ b.dexp ≤ b.mant * 10 ^ a.dexp

/-- Float comparison `a < b` (by value). -/
def plt (a b : PyFloat) : Bool := a.mant * 10 ^ b.dexp < b.mant * 10 ^ a.dexp

/-- Float equality `a == b` (by value). -/
def peq (a b : PyFloat) : Bool := a.mant * 10 ^ b.dexp = b.mant * 10 ^ a.dexp

/-- Python `max(a, b)` (returns the first argument on ties). -/
def pmax (a b : PyFloat) : PyFloat := if plt a b then b else a

theorem toRat_le_iff (a b : PyFloat) : ple a b = true ↔ toRat a ≤ toRat b := by
  unfold ple toRat
  rw [div_le_div_iff₀ (by positivity) (by positivity)]
  rw [decide_eq_true_eq]
  constructor
  · intro h
    exact_mod_cast h
  · intro h
    exact_mod_cast h

theorem toRat_lt_iff (a b : PyFloat) : plt a b = true ↔ toRat a < toRat b := by
  unfold plt toRat
  rw [div_lt_div_iff₀ (by positivity) (by positivity)]
  rw [decide_eq_true_eq]
  constructor
  · intro h
    exact_mod_cast h
  · intro h
    exact_mod_cast h

theorem toRat_eq_iff (a b : PyFloat) : peq a b = true ↔ toRat a = toRat b := by
  unfold peq toRat
  rw [div_eq_div_iff (by positivity) (by positivity)]
  rw [decide_eq_true_eq]
  constructor
  · intro h
    exact_mod_cast h
  · intro h
    exact_mod_cast h

/-- Python strings as character lists. -/
abbrev Str := List Char

/-- Coerce a Lean string literal to the `Str` representation. -/
def str (s : String) : Str := s.data

/-- `s.lower()` (the program only lowercases ASCII text). -/
def lowerStr (s : Str) : Str := s.map Char.toLower

/-- `s.strip()`: remove leading and trailing whitespace. -/
def stripStr (s : Str) : Str :=
  ((s.dropWhile Char.isWhitespace).reverse.dropWhile Char.isWhitespace).reverse

/-- `s.split(sep)` for a single-character separator, Python semantics
(`"30-45".split("-") = ["30","45"]`, `"-5".split("-") = ["","5"]`). -/
def splitOnChar (c : Char) : Str → List Str
  | [] => [[]]
  | x :: xs =>
    let r := splitOnChar c xs
    if x = c then [] :: r
    else
      match r with
      | [] => [[x]]
      | y :: ys => (x :: y) :: ys

/-- Numeric value of a digit string (most significant first). -/
def digitsVal (s : Str) : Nat :=
  s.foldl (fun a c => 10 * a + (c.toNat - '0'.toNat)) 0

/-- Unsigned part of the `float()` model: plain decimal notation,
digits with at most one dot and at least one digit. -/
def parseUnsigned (s : Str) : Option PyFloat :=
  if s = [] then none
  else
    match splitOnChar '.' s with
    | [ip] =>
      if ip ≠ [] ∧ ip.all Char.isDigit then some (pf (digitsVal ip) 0) else none
    | [ip, fp] =>
      if (ip ≠ [] ∨ fp ≠ []) ∧ ip.all Char.isDigit ∧ fp.all Char.isDigit then
        some (pf ((digitsVal ip : Int) * 10 ^ fp.length + digitsVal fp) fp.length)
      else none
    | _ => none

/-- Model of Python `float(s)` on plain decimal notation (optional
sign, digits, one optional dot).  The exotic accepted forms
(exponents, `inf`, `nan`, underscores) never occur in this program's
reference table or in the inputs considered here.  `none` models the
`ValueError` that `float` raises. -/
def parseNum (s : Str) : Option PyFloat :=
  let s := stripStr s
  match s with
  | '+' :: rest => parseUnsigned rest
  | '-' :: rest => (parseUnsigned rest).map pneg
  | _ => parseUnsigned s

/-- The chained `s.replace("–","-").replace("—","-").replace("≥",">=")
.replace("≤","<=")` from `parse_bounds`; the replacement targets and
outputs do not overlap, so a single left-to-right pass is equivalent. -/
def normalizeGlyphs : Str → Str
  | [] => []
  | c :: cs =>
    (if c = '–' then str "-"
     else if c = '—' then str "-"
     else if c = '≥' then str ">="
     else if c = '≤' then str "<="
     else [c]) ++ normalizeGlyphs cs

/-- The `kind` tag of a parsed range spec (the source uses the string
tags `"na" "ge" "gt" "le" "lt" "range" "eq"`; `rng` stands for
`"range"`). -/
inductive BKind where
  | na | ge | gt | le | lt | rng | eq
deriving DecidableEq, Repr

/-- A parsed bound/kind triple `(lo, hi, kind)`. -/
abbrev Bounds := Option PyFloat × Option PyFloat × BKind

/-- Embedding of `parse_bounds` (morph_streamlit.py lines 15-41).
`.error ()` models the uncaught `ValueError` that `float(s[2:])` /
`float(s[1:])` raises after a leading comparator; the dash-range and
single-float branches wrap `float` in `try`/`except` and therefore
never raise. -/
def parse_bounds (spec : Option Str) : Except Unit (Option Bounds) :=
  match spec with
  | none => .ok none
  | some spec0 =>
    let s := stripStr spec0
    if s = [] ∨ s = str "-" ∨ lowerStr s = str "na" ∨ lowerStr s = str "n/a" ∨
        lowerStr s = str "none" then
      .ok (some (none, none, .na))
    else
      let s := normalizeGlyphs s
      if (str ">=").isPrefixOf s then
        match parseNum (s.drop 2) with
        | some v => .ok (some (some v, none, .ge))
        | none => .error ()
      else if (str "<=").isPrefixOf s then
        match parseNum (s.drop 2) with
        | some v => .ok (some (none, some v, .le))
        | none => .error ()
      else if (str ">").isPrefixOf s then
        match parseNum (s.drop 1) with
        | some v => .ok (some (some v, none, .gt))
        | none => .error ()
      else if (str "<").isPrefixOf s then
        match parseNum (s.drop 1) with
        | some v => .ok (some (none, some v, .lt))
        | none => .error ()
      else
        let viaRange : Option Bounds :=
          if s.contains '-' then
            match (splitOnChar '-' s).map stripStr with
            | [a, b] =>
              if a ≠ [] ∧ b ≠ [] then
                match parseNum a, parseNum b with
                | some x, some y => some (some x, some y, .rng)
                | _, _ => none
              else none
            | _ => none
          else none
        match viaRange with
        | some t => .ok (some t)
        | none =>
          match parseNum s with
          | some v => .ok (some (some v, some v, .eq))
          | none => .ok none

/-- Embedding of `value_in_spec` (lines 43-64).  `.ok none` is the
Python `None` ("undefined") result for an unparseable spec; the final
unreachable `return None` of the source needs no case because `BKind`
is exhaustive.  Comparisons against a missing one-sided bound follow
the source's `float("inf")` arithmetic (`v > -inf` is true, etc.). -/
def value_in_spec (value : Option PyFloat) (spec : Str) : Except Unit (Option Bool) :=
  match parse_bounds (some spec) with
  | .error e => .error e
  | .ok none => .ok none
  | .ok (some (lo, hi, kind)) =>
    match value with
    | none => .ok (some (kind = BKind.na))
    | some v =>
      match kind with
      | .na => .ok (some true)
      | .rng =>
        .ok (some ((match lo with | none => true | some l => ple l v) &&
                   (match hi with | none => true | some h => ple v h)))
      | .gt => .ok (some (match lo with | none => true | some l => plt l v))
      | .lt => .ok (some (match hi with | none => true | some h => plt v h))
      | .ge => .ok (some (match lo with | none => true | some l => ple l v))
      | .le => .ok (some (match hi with | none => true | some h => ple v h))
      | .eq => .ok (some (plt (pabs (psub v (lo.getD v))) (pf 1 9)))

/-- Embedding of `range_distance` (lines 66-92).  Distances against a
missing one-sided bound degenerate exactly as the source's
`float("inf")` arithmetic does (`max(0.0, -inf - v) = 0.0`).  The
`getD` defaults in the `rng` case are unreachable (the taken branch
implies the bound is present). -/
def range_distance (value : Option PyFloat) (spec : Str) : Except Unit PyFloat :=
  match parse_bounds (some spec) with
  | .error e => .error e
  | .ok none => .ok (pf 0 0)
  | .ok (some (lo, hi, kind)) =>
    match value with
    | none => .ok (pf 5 1)
    | some v =>
      match kind with
      | .na => .ok (pf 0 0)
      | .gt | .ge => .ok (match lo with | none => pf 0 0 | some b => pmax (pf 0 0) (psub b v))
      | .lt | .le => .ok (match hi with | none => pf 0 0 | some b => pmax (pf 0 0) (psub v b))
      | .eq => .ok (pabs (psub v (lo.getD v)))
      | .rng =>
        if ((match lo with | none => true | some l => ple l v) &&
            (match hi with | none => true | some h => ple v h)) then .ok (pf 0 0)
        else if (match lo with | none => false | some l => plt v l) then
          .ok (psub (lo.getD (pf 0 0)) v)
        else .ok (psub v (hi.getD (pf 0 0)))

/-- Embedding of `to_num` (lines 94-103) on the declared interface
type: the presentation layer passes numeric fields as numbers or
absent (spec section 6), on which the string round-trip of the source
is the identity. -/
def to_num (val : Option PyFloat) : Option PyFloat := val

example : parse_bounds (some (str "30-45")) = .ok (some (some (pf 30 0), some (pf 45 0), .rng)) := by decide
example : parse_bounds (some (str ">=3")) = .ok (some (some (pf 3 0), none, .ge)) := by decide
example : parse_bounds (some (str "<10")) = .ok (some (none, some (pf 10 0), .lt)) := by decide
example : parse_bounds (some (str "-")) = .ok (some (none, none, .na)) := by decide
example : parse_bounds (some (str "na")) = .ok (some (none, none, .na)) := by decide
example : parse_bounds (some (str "0.2-0.4")) = .ok (some (some (pf 2 1), some (pf 4 1), .rng)) := by decide
example : value_in_spec (some (pf 35 0)) (str "30-45") = .ok (some true) := by decide
example : value_in_spec (some (pf 50 0)) (str "30-45") = .ok (some false) := by decide
example : range_distance (some (pf 20 0)) (str ">=24") = .ok (pf 4 0) := by decide
example : range_distance (some (pf 30 0)) (str ">=24") = .ok (pf 0 0) := by decide

/-- The twelve input parameters (glossary of the spec). -/
inductive PKey where
  | SVF | SCR | FAR | BSF | ISF | PSF | BH | BHD | BHV | AL | TH | TR
deriving DecidableEq, Repr

/-- A parameter set: numeric parameters are numbers or absent, `TH`
is free-form text or absent (spec section 3). -/
structure Params where
  SVF : Option PyFloat := none
  SCR : Option PyFloat := none
  FAR : Option PyFloat := none
  BSF : Option PyFloat := none
  ISF : Option PyFloat := none
  PSF : Option PyFloat := none
  BH : Option PyFloat := none
  BHD : Option PyFloat := none
  BHV : Option PyFloat := none
  AL : Option PyFloat := none
  TR : Option PyFloat := none
  TH : Option Str := none
deriving DecidableEq, Repr

/-- `params.get(k)` for the numeric parameters.  `TH` is never read
through this accessor: `score_class` branches on `k == "TH"` first and
`classify_flow` reads `params.get("TH")` directly as text. -/
def pget (p : Params) : PKey → Option PyFloat
  | .SVF => p.SVF
  | .SCR => p.SCR
  | .FAR => p.FAR
  | .BSF => p.BSF
  | .ISF => p.ISF
  | .PSF => p.PSF
  | .BH => p.BH
  | .BHD => p.BHD
  | .BHV => p.BHV
  | .AL => p.AL
  | .TR => p.TR
  | .TH => none

/-- The reference table `LCZ_TABLE` (lines 189-206), with codes in the
source dictionary's insertion order and each code's specs in the
source's key order (SVF, SCR, FAR, BSF, ISF, PSF, BH, BHD, BHV, AL,
TH, TR). -/
def LCZ_TABLE : List (Str × List (PKey × Str)) :=
  [ (str "1",
      [(.SVF, str "0.2-0.4"), (.SCR, str ">2"), (.FAR, str ">=3"), (.BSF, str "30-45"),
       (.ISF, str "40-60"), (.PSF, str "<10"), (.BH, str ">=24"), (.BHD, str "-"),
       (.BHV, str "-"), (.AL, str "0.1-0.2"), (.TH, str "-"), (.TR, str "8")]),
    (str "2",
      [(.SVF, str "0.3-0.6"), (.SCR, str "0.75-2"), (.FAR, str "1.5-3"), (.BSF, str "30-45"),
       (.ISF, str "30-50"), (.PSF, str "<20"), (.BH, str "9-24"), (.BHD, str "<9"),
       (.BHV, str "-"), (.AL, str "0.1-0.2"), (.TH, str "-"), (.TR, str "6-7")]),
    (str "3",
      [(.SVF, str "0.2-0.6"), (.SCR, str "0.75-1.5"), (.FAR, str "1-1.5"), (.BSF, str "40-70"),
       (.ISF, str "20-50"), (.PSF, str "<30"), (.BH, str "<=9"), (.BHD, str "-"),
       (.BHV, str "-"), (.AL, str "0.1-0.2"), (.TH, str "-"), (.TR, str "6")]),
    (str "34",
      [(.SVF, str "0.2-0.4"), (.SCR, str ">2"), (.FAR, str "1.2-2.5"), (.BSF, str "25-30"),
       (.ISF, str "40-60"), (.PSF, str "<10"), (.BH, str "12-40"), (.BHD, str "-"),
       (.BHV, str ">145"), (.AL, str "0.12-0.25"), (.TH, str "-"), (.TR, str "8")]),
    (str "4",
      [(.SVF, str "0.5-0.7"), (.SCR, str "0.75-1.25"), (.FAR, str "2-3"), (.BSF, str "20-30"),
       (.ISF, str "30-40"), (.PSF, str "30-40"), (.BH, str ">=24"), (.BHD, str "-"),
       (.BHV, str "-"), (.AL, str "0.12-0.25"), (.TH, str "-"), (.TR, str "7-8")]),
    (str "35",
      [(.SVF, str "0.3-0.6"), (.SCR, str "0.75-2"), (.FAR, str "1.2-2"), (.BSF, str "20-30"),
       (.ISF, str "30-50"), (.PSF, str "<20"), (.BH, str "12-20"), (.BHD, str "-"),
       (.BHV, str "<=145"), (.AL, str "0.1-0.2"), (.TH, str "-"), (.TR, str "6-7")]),
    (str "5",
      [(.SVF, str "0.5-0.8"), (.SCR, str "0.3-0.75"), (.FAR, str "1.2-2"), (.BSF, str "20-30"),
       (.ISF, str "30-50"), (.PSF, str "20-40"), (.BH, str "9-24"), (.BHD, str "-"),
       (.BHV, str "-"), (.AL, str "0.12-0.25"), (.TH, str "-"), (.TR, str "5-6")]),
    (str "6",
      [(.SVF, str "0.6-0.9"), (.SCR, str "0.3-0.75"), (.FAR, str "<0.3"), (.BSF, str "20-40"),
       (.ISF, str "20-50"), (.PSF, str "30-60"), (.BH, str "<=9"), (.BHD, str "-"),
       (.BHV, str "-"), (.AL, str "0.12-0.25"), (.TH, str "-"), (.TR, str "5")]),
    (str "8",
      [(.SVF, str ">0.7"), (.SCR, str "0.1-0.3"), (.FAR, str "0.8-2.5"), (.BSF, str "30-50"),
       (.ISF, str "40-50"), (.PSF, str "<20"), (.BH, str "<=9"), (.BHD, str "-"),
       (.BHV, str "-"), (.AL, str "0.15-0.25"), (.TH, str "-"), (.TR, str "5")]),
    (str "8B",
      [(.SVF, str ">0.7"), (.SCR, str "0.1-0.3"), (.FAR, str "0.8-2.5"), (.BSF, str "30-50"),
       (.ISF, str "40-50"), (.PSF, str "<20"), (.BH, str "<=9"), (.BHD, str "-"),
       (.BHV, str "-"), (.AL, str "0.12-0.25"), (.TH, str "-"), (.TR, str "5")]),
    (str "9",
      [(.SVF, str ">0.8"), (.SCR, str "0.1-0.25"), (.FAR, str "<=0.3"), (.BSF, str "<10"),
       (.ISF, str "<20"), (.PSF, str "60-80"), (.BH, str "<=9"), (.BHD, str "-"),
       (.BHV, str "-"), (.AL, str "0.12-0.25"), (.TH, str "-"), (.TR, str "5-6")]),
    (str "A",
      [(.SVF, str "<0.4"), (.SCR, str ">1"), (.FAR, str "-"), (.BSF, str "<10"),
       (.ISF, str "<10"), (.PSF, str ">90"), (.BH, str "3-30"), (.BHD, str "-"),
       (.BHV, str "-"), (.AL, str "0.1-0.2"), (.TH, str "Dense trees"), (.TR, str "8")]),
    (str "B",
      [(.SVF, str "0.5-0.8"), (.SCR, str "0.25-0.75"), (.FAR, str "-"), (.BSF, str "<10"),
       (.ISF, str "<10"), (.PSF, str ">90"), (.BH, str "3-15"), (.BHD, str "-"),
       (.BHV, str "-"), (.AL, str "0.15-0.25"), (.TH, str "Sparse trees"), (.TR, str "5-6")]),
    (str "C",
      [(.SVF, str "0.7-0.9"), (.SCR, str "0.25-1.0"), (.FAR, str "-"), (.BSF, str "<10"),
       (.ISF, str "<10"), (.PSF, str ">90"), (.BH, str "<2"), (.BHD, str "-"),
       (.BHV, str "-"), (.AL, str "0.15-0.3"), (.TH, str "Dense bush"), (.TR, str "4-5")]),
    (str "D",
      [(.SVF, str ">0.9"), (.SCR, str "<0.1"), (.FAR, str "-"), (.BSF, str "<10"),
       (.ISF, str "<10"), (.PSF, str ">90"), (.BH, str "<1"), (.BHD, str "-"),
       (.BHV, str "-"), (.AL, str "0.15-0.25"), (.TH, str "Ground cover area"), (.TR, str "3-4")]),
    (str "G",
      [(.SVF, str ">0.9"), (.SCR, str "<0.1"), (.FAR, str "-"), (.BSF, str "<10"),
       (.ISF, str "<10"), (.PSF, str ">90"), (.BH, str "-"), (.BHD, str "-"),
       (.BHV, str "-"), (.AL, str "0.02-0.10"), (.TH, str "-"), (.TR, str "1")]) ]

/-- `list(LCZ_TABLE.keys())`, the default candidate set of
`best_matches`. -/
def ALL_CODES : List Str := LCZ_TABLE.map (fun ce => ce.1)

/-- Python's substring test `needle in hay`. -/
def isSubstr (needle : Str) : Str → Bool
  | [] => needle.isEmpty
  | h :: t => needle.isPrefixOf (h :: t) || isSubstr needle t

/-- The TH test of `score_class` (lines 375-379): the raw spec string,
lower-cased, tested for substring containment in the supplied TH text
(`if th and str(spec_str).lower() in str(th).lower()`). -/
def th_hit (p : Params) (spec_str : Str) : Bool :=
  match p.TH with
  | some t => !t.isEmpty && isSubstr (lowerStr spec_str) (lowerStr t)
  | none => false

/-- One iteration of the `for k, spec_str in spec.items()` loop of
`score_class` (lines 374-383), threading the `(hits, dist)`
accumulator. -/
def score_step (p : Params) (acc : Nat × PyFloat) (entry : PKey × Str) :
    Except Unit (Nat × PyFloat) :=
  if entry.1 = PKey.TH then
    .ok (if th_hit p entry.2 then acc.1 + 1 else acc.1, acc.2)
  else
    match value_in_spec (to_num (pget p entry.1)) entry.2 with
    | .error e => .error e
    | .ok inside =>
      match range_distance (to_num (pget p entry.1)) entry.2 with
      | .error e => .error e
      | .ok dd =>
        .ok ((if inside = some true then acc.1 + 1 else acc.1), padd acc.2 dd)

/-- The `for k, spec_str in spec.items()` loop of `score_class`,
threading the accumulator through `score_step`. -/
def score_entries (p : Params) (acc : Nat × PyFloat) :
    List (PKey × Str) → Except Unit (Nat × PyFloat)
  | [] => .ok acc
  | e :: rest =>
    match score_step p acc e with
    | .error err => .error err
    | .ok acc2 => score_entries p acc2 rest

/-- Embedding of `score_class` (lines 370-384).  The `.error` on a
missing code models the `KeyError` of `LCZ_TABLE[lcz]`. -/
def score_class (p : Params) (lcz : Str) : Except Unit (Nat × PyFloat) :=
  match List.lookup lcz LCZ_TABLE with
  | none => .error ()
  | some entries => score_entries p (0, pf 0 0) entries

/-- A scored candidate `(code, hits, dist)`. -/
abbrev Scored := Str × Nat × PyFloat

/-- Python string `<=` (lexicographic by code point). -/
def strLe : Str → Str → Bool
  | [], _ => true
  | _ :: _, [] => false
  | a :: as, b :: bs => if a = b then strLe as bs else decide (a < b)

/-- The sort key of `best_matches` (line 393,
`key=lambda x: (-x[1], x[2], x[0])`): hits descending, then distance
ascending, then code ascending. -/
def scoreKeyLE (a b : Scored) : Bool :=
  decide (b.2.1 < a.2.1) ||
    (decide (a.2.1 = b.2.1) &&
      (plt a.2.2 b.2.2 || (peq a.2.2 b.2.2 && strLe a.1 b.1)))

/-- `scoreKeyLE` as a relation, for the sort. -/
def ScoreLE (a b : Scored) : Prop := scoreKeyLE a b = true

instance : DecidableRel ScoreLE := fun a b => decEq (scoreKeyLE a b) true

/-- The `for l in candidates: scored.append(...)` loop of
`best_matches`. -/
def score_list (p : Params) : List Str → Except Unit (List Scored)
  | [] => .ok []
  | l :: ls =>
    match score_class p l with
    | .error e => .error e
    | .ok hd =>
      match score_list p ls with
      | .error e => .error e
      | .ok rest => .ok ((l, hd) :: rest)

/-- Embedding of `best_matches` (lines 386-394).  Python's stable
`list.sort` is modelled by insertion sort; the sort key is total and,
on candidate lists without duplicate codes (the only ones this program
builds), antisymmetric, so the sorted order is the same. -/
def best_matches (p : Params) (candidates : List Str) (topk : Nat) :
    Except Unit (List Scored) :=
  match score_list p candidates with
  | .error e => .error e
  | .ok scored => .ok ((List.insertionSort ScoreLE scored).take topk)

/-- Python `min(a, b)` (returns the first argument on ties). -/
def pmin (a b : PyFloat) : PyFloat := if ple a b then a else b

/-- Python `min(xs, key=...)`: the first element with minimal key. -/
def pyMinBy {α : Type} (key : α → PyFloat) : List α → Option α
  | [] => none
  | x :: xs => some (xs.foldl (fun best y => if plt (key y) (key best) then y else best) x)

/-- `int(x)` on a float: truncation toward zero. -/
def pyTrunc (x : PyFloat) : Int := Int.tdiv x.mant (10 ^ x.dexp)

/-- Decimal digits of a natural number. -/
def fmtNat (n : Nat) : Str := Nat.toDigits 10 n

/-- `f"{i}"` for an int. -/
def fmtInt (i : Int) : Str := if i < 0 then '-' :: fmtNat i.natAbs else fmtNat i.natAbs

/-- Strip trailing decimal zeros: `m / 10^e` with minimal `e`. -/
def pnorm : Int → Nat → PyFloat
  | m, 0 => ⟨m, 0⟩
  | m, e + 1 => if m % 10 = 0 then pnorm (m / 10) e else ⟨m, e + 1⟩

/-- Digits of a normalized nonnegative `PyFloat`. -/
def fmtPos (x : PyFloat) : Str :=
  if x.dexp = 0 then fmtNat x.mant.natAbs ++ str ".0"
  else
    fmtNat (x.mant.natAbs / 10 ^ x.dexp) ++ str "." ++
      (List.replicate (x.dexp - (fmtNat (x.mant.natAbs % 10 ^ x.dexp)).length) '0' ++
        fmtNat (x.mant.natAbs % 10 ^ x.dexp))

/-- `f"{x}"` for a float: Python's `repr`, which for the exact decimal
values this program formats is the shortest decimal rendering
(`0.05`, `1.0`, `8.5`, ...). -/
def fmtFloat (x : PyFloat) : Str :=
  if x.mant < 0 then '-' :: fmtPos (pnorm (-x.mant) x.dexp) else fmtPos (pnorm x.mant x.dexp)

/-- The keyword dictionary `TH_TO_LCZ` (lines 398-414), in the
source's insertion order (first match wins). -/
def TH_TO_LCZ : List (Str × Str) :=
  [ (str "dense tree", str "A"), (str "dense", str "A"),
    (str "scattered tree", str "B"), (str "sparse tree", str "B"),
    (str "scattered", str "B"), (str "sparse", str "B"),
    (str "bush", str "C"), (str "scrub", str "C"),
    (str "low plant", str "D"), (str "grass", str "D"), (str "ground cover", str "D"),
    (str "water", str "G"), (str "lake", str "G"), (str "river", str "G") ]

/-- The roughness bands `TR_BANDS` (lines 417-423). -/
def TR_BANDS : List (Str × (PyFloat × PyFloat) × Str) :=
  [ (str "A", (pf 75 1, pf 85 1), str "TR ≈ 8 → (dense trees)"),
    (str "B", (pf 45 1, pf 65 1), str "TR ≈ 5–6 → (scattered/sparse trees)"),
    (str "C", (pf 35 1, pf 50 1), str "TR ≈ 4–5 → (bush/scrub)"),
    (str "D", (pf 25 1, pf 40 1), str "TR ≈ 3–4 → (low plants/grass)"),
    (str "G", (pf 5 1, pf 15 1), str "TR ≈ 1 → (water)") ]

/-- Embedding of `infer_lcz_from_TH` (lines 425-432); `if not TH`
covers both an absent and an empty text. -/
def infer_lcz_from_TH (TH : Option Str) : Option Str × Str :=
  match TH with
  | none => (none, str "TH not provided")
  | some t =>
    if t.isEmpty then (none, str "TH not provided")
    else
      let s := lowerStr t
      match TH_TO_LCZ.find? (fun kv => isSubstr kv.1 s) with
      | some kv => (some kv.2, str "TH = \x27" ++ t ++ str "\x27 → LCZ-" ++ kv.2)
      | none => (none, str "TH provided (\x27" ++ t ++ str "\x27) but no keyword match")

/-- Embedding of `infer_lcz_from_TR` (lines 434-443): first containing
band, else the band with the numerically nearest endpoint (first
minimal wins, as for Python `min`).  The `(none, [])` case is
unreachable: `TR_BANDS` is a nonempty constant. -/
def infer_lcz_from_TR (TR : Option PyFloat) : Option Str × Str :=
  match TR with
  | none => (none, str "TR not provided")
  | some tr =>
    match TR_BANDS.find? (fun b => ple b.2.1.1 tr && ple tr b.2.1.2) with
    | some b =>
      (some b.1, str "TR = " ++ fmtInt (pyTrunc tr) ++ str " in " ++ b.2.2 ++
        str " → LCZ-" ++ b.1)
    | none =>
      match pyMinBy (fun b => pmin (pabs (psub tr b.2.1.1)) (pabs (psub tr b.2.1.2))) TR_BANDS with
      | some b =>
        (some b.1, str "TR = " ++ fmtInt (pyTrunc tr) ++ str " nearest to " ++ b.2.2 ++
          str " → LCZ-" ++ b.1)
      | none => (none, [])

/-- The `TR is None or (0.5 <= TR <= 1.5)` test of
`prefer_water_with_AL`. -/
def trNearOne (TR : Option PyFloat) : Bool :=
  match TR with
  | none => true
  | some t => ple (pf 5 1) t && ple t (pf 15 1)

/-- Embedding of `prefer_water_with_AL` (lines 445-449).  The callers
only pass a non-`None` code, so `code : Str`. -/
def prefer_water_with_AL (code : Str) (AL TR : Option PyFloat) : Str × Option Str :=
  match AL with
  | some a =>
    if ple (pf 2 2) a && ple a (pf 10 2) then
      if trNearOne TR then
        (str "G", some (str "AL=" ++ fmtFloat a ++ str " (0.02–0.10) and TR≈1 ⇒ LCZ-G (water)"))
      else (code, none)
    else (code, none)
  | none => (code, none)

/-- The dictionary returned by `classify_flow`.  The source
accumulates `nodes` in a Python `set` and returns `list(nodes)` in
unspecified iteration order; here `nodes` is the same node collection
in insertion order (no claim depends on that order, only on
membership). -/
structure FlowResult where
  lcz : Str
  trace : List Str
  nodes : List Str
  edges : List (Str × Str × Str)
  alternatives : List Scored
deriving DecidableEq, Repr

/-- The shape of every scoring-fallback return site of
`classify_flow`: take the ranked `winner` list from `best_matches`,
build the result record from `winner[0]` (raising `IndexError` -- the
`.error` case -- were the list empty, as `winner[0]` would). -/
def pickWinner (w : Except Unit (List Scored))
    (g : Scored → List Scored → FlowResult) : Except Unit FlowResult :=
  w.bind fun winner =>
    match winner.head? with
    | some w0 => .ok (g w0 winner)
    | none => .error ()

/-- The start transition (line 484): `(BSF is not None and BSF >= 10)
or (ISF is not None and ISF >= 10)`. -/
def builtCond (p : Params) : Bool :=
  (match to_num p.BSF with | some b => ple (pf 10 0) b | none => false) ||
  (match to_num p.ISF with | some i => ple (pf 10 0) i | none => false)

/-- The `midrise123435` node (lines 502-529): decide among LCZ-2 /
LCZ-34 / LCZ-35 by BHD and BHV, falling back to table scoring over
`{2, 34, 35}` when both are missing. -/
def classify_midrise (p : Params) : Except Unit FlowResult :=
  let BHD := to_num p.BHD
  let BHV := to_num p.BHV
  let t3 := [str "Built-up (BSF ≥10 or ISF ≥10)", str "BSF ≥ 40 → \x7b1,2,3,34,35\x7d",
             str "Decide among LCZ-2 / LCZ-34 / LCZ-35 using BHD and BHV"]
  let e3 := [(str "start", str "built", str "BSF≥10 or ISF≥10"),
             (str "built", str "bsf40", str "BSF≥40"),
             (str "bsf40", str "midrise123435", str "10≤BH<25")]
  let ns3 := [str "start", str "built", str "bsf40", str "midrise123435"]
  let afterBHD : Except Unit FlowResult :=
    match BHV with
    | some bhv =>
      if plt (pf 145 0) bhv then
        (best_matches p [str "2", str "35"] 2).map (fun alts =>
          { lcz := str "34",
            trace := t3 ++ [str "BHV=" ++ fmtFloat bhv ++ str " > 145 ⇒ LCZ-34"],
            nodes := ns3 ++ [str "lcz34"],
            edges := e3 ++ [(str "midrise123435", str "lcz34", str "BHV>145")],
            alternatives := alts })
      else
        (best_matches p [str "2", str "34"] 2).map (fun alts =>
          { lcz := str "35",
            trace := t3 ++ [str "BHV=" ++ fmtFloat bhv ++ str " ≤ 145 ⇒ LCZ-35"],
            nodes := ns3 ++ [str "lcz35"],
            edges := e3 ++ [(str "midrise123435", str "lcz35", str "BHV≤145")],
            alternatives := alts })
    | none =>
      pickWinner (best_matches p [str "2", str "34", str "35"] 3) (fun w winner =>
        { lcz := w.1,
          trace := t3 ++
            [str "BHD/BHV missing ⇒ fallback table scoring among \x7b2,34,35\x7d"],
          nodes := ns3 ++ [str "lcz" ++ w.1],
          edges := e3 ++ [(str "midrise123435", str "lcz" ++ w.1, str "table-fallback")],
          alternatives := winner })
  match BHD with
  | some bhd =>
    if plt bhd (pf 9 0) then
      (best_matches p [str "34", str "35"] 2).map (fun alts =>
        { lcz := str "2",
          trace := t3 ++ [str "BHD=" ++ fmtFloat bhd ++ str " < 9 ⇒ LCZ-2"],
          nodes := ns3 ++ [str "lcz2"],
          edges := e3 ++ [(str "midrise123435", str "lcz2", str "BHD<9")],
          alternatives := alts })
    else afterBHD
  | none => afterBHD

/-- The `bsf40` node (lines 494-537): LCZ-1 / midrise / LCZ-3 by BH,
falling back to table scoring over `{1, 2, 3, 34, 35}` when BH is
missing. -/
def classify_bsf40 (p : Params) : Except Unit FlowResult :=
  let BH := to_num p.BH
  let t2 := [str "Built-up (BSF ≥10 or ISF ≥10)", str "BSF ≥ 40 → \x7b1,2,3,34,35\x7d"]
  let e2 := [(str "start", str "built", str "BSF≥10 or ISF≥10"),
             (str "built", str "bsf40", str "BSF≥40")]
  match BH with
  | some bh =>
    if ple (pf 25 0) bh then
      (best_matches p ALL_CODES 3).map (fun alts =>
        { lcz := str "1",
          trace := t2 ++ [str "BH ≥ 25 ⇒ LCZ-1"],
          nodes := [str "start", str "built", str "bsf40", str "lcz1"],
          edges := e2 ++ [(str "bsf40", str "lcz1", str "BH≥25")],
          alternatives := alts })
    else if ple (pf 10 0) bh && plt bh (pf 25 0) then
      classify_midrise p
    else
      (best_matches p ALL_CODES 3).map (fun alts =>
        { lcz := str "3",
          trace := t2 ++ [str "BH < 10 ⇒ LCZ-3"],
          nodes := [str "start", str "built", str "bsf40", str "lcz3"],
          edges := e2 ++ [(str "bsf40", str "lcz3", str "BH<10")],
          alternatives := alts })
  | none =>
    pickWinner (best_matches p [str "1", str "2", str "3", str "34", str "35"] 3)
      (fun w winner =>
        { lcz := w.1,
          trace := t2,
          nodes := [str "start", str "built", str "bsf40", str "lcz" ++ w.1],
          edges := e2 ++ [(str "bsf40", str "lcz" ++ w.1, str "best-match (BH missing)")],
          alternatives := winner })

/-- The `lowrise_branch` node (lines 550-574): LCZ-6 / LCZ-8 / LCZ-8B
by SCR, FAR and PSF, falling back to table scoring over `{6, 8, 8B}`.
The PSF test re-reads `params["PSF"]` directly (line 559). -/
def classify_lowrise (p : Params) : Except Unit FlowResult :=
  let SCR := to_num p.SCR
  let FAR := to_num p.FAR
  let t3 := [str "Built-up (BSF ≥10 or ISF ≥10)",
             str "20% ≤ BSF < 40 (or missing high) → \x7b4,5,6,8,8B\x7d",
             str "BH < 10 ⇒ decide with SCR & FAR"]
  let e3 := [(str "start", str "built", str "BSF≥10 or ISF≥10"),
             (str "built", str "bsf20to40", str "20≤BSF<40"),
             (str "bsf20to40", str "lowrise_branch", str "BH<10")]
  let ns3 := [str "start", str "built", str "bsf20to40", str "lowrise_branch"]
  match SCR, FAR with
  | some scr, some far =>
    if ple (pf 3 1) scr && ple scr (pf 75 2) && ple far (pf 3 1) then
      (best_matches p ALL_CODES 3).map (fun alts =>
        { lcz := str "6",
          trace := t3 ++ [str "0.3 ≤ SCR ≤ 0.75 and FAR ≤ 0.3 ⇒ LCZ-6"],
          nodes := ns3 ++ [str "lcz6"],
          edges := e3 ++ [(str "lowrise_branch", str "lcz6", str "SCR/FAR rule")],
          alternatives := alts })
    else if ple (pf 1 1) scr && plt scr (pf 3 1) && plt (pf 3 1) far then
      if (match p.PSF with | some psf => plt psf (pf 10 0) | none => false) then
        (best_matches p ALL_CODES 3).map (fun alts =>
          { lcz := str "8",
            trace := t3 ++ [str "PSF < 10 ⇒ LCZ-8"],
            nodes := ns3 ++ [str "lcz8"],
            edges := e3 ++ [(str "lowrise_branch", str "lcz8", str "PSF<10")],
            alternatives := alts })
      else
        (best_matches p ALL_CODES 3).map (fun alts =>
          { lcz := str "8B",
            trace := t3 ++ [str "PSF ≥ 10 ⇒ LCZ-8B"],
            nodes := ns3 ++ [str "lcz8B"],
            edges := e3 ++ [(str "lowrise_branch", str "lcz8B", str "PSF≥10")],
            alternatives := alts })
    else
      pickWinner (best_matches p [str "6", str "8", str "8B"] 3) (fun w winner =>
        { lcz := w.1,
          trace := t3,
          nodes := ns3 ++ [str "lcz" ++ w.1],
          edges := e3 ++ [(str "lowrise_branch", str "lcz" ++ w.1, str "best-match")],
          alternatives := winner })
  | _, _ =>
    pickWinner (best_matches p [str "6", str "8", str "8B"] 3) (fun w winner =>
      { lcz := w.1,
        trace := t3,
        nodes := ns3 ++ [str "lcz" ++ w.1],
        edges := e3 ++
          [(str "lowrise_branch", str "lcz" ++ w.1, str "best-match (SCR/FAR missing)")],
        alternatives := winner })

/-- The `bsf20to40` node (lines 538-578): LCZ-4 / LCZ-5 / low-rise by
BH, falling back to table scoring over `{4, 5, 6, 8, 8B}` when BH is
missing. -/
def classify_bsf20to40 (p : Params) : Except Unit FlowResult :=
  let BH := to_num p.BH
  let t2 := [str "Built-up (BSF ≥10 or ISF ≥10)",
             str "20% ≤ BSF < 40 (or missing high) → \x7b4,5,6,8,8B\x7d"]
  let e2 := [(str "start", str "built", str "BSF≥10 or ISF≥10"),
             (str "built", str "bsf20to40", str "20≤BSF<40")]
  match BH with
  | some bh =>
    if ple (pf 25 0) bh then
      (best_matches p ALL_CODES 3).map (fun alts =>
        { lcz := str "4",
          trace := t2 ++ [str "BH ≥ 25 ⇒ LCZ-4"],
          nodes := [str "start", str "built", str "bsf20to40", str "lcz4"],
          edges := e2 ++ [(str "bsf20to40", str "lcz4", str "BH≥25")],
          alternatives := alts })
    else if ple (pf 10 0) bh && plt bh (pf 25 0) then
      (best_matches p ALL_CODES 3).map (fun alts =>
        { lcz := str "5",
          trace := t2 ++ [str "10 ≤ BH < 25 ⇒ LCZ-5"],
          nodes := [str "start", str "built", str "bsf20to40", str "lcz5"],
          edges := e2 ++ [(str "bsf20to40", str "lcz5", str "10≤BH<25")],
          alternatives := alts })
    else
      classify_lowrise p
  | none =>
    pickWinner (best_matches p [str "4", str "5", str "6", str "8", str "8B"] 3)
      (fun w winner =>
        { lcz := w.1,
          trace := t2,
          nodes := [str "start", str "built", str "bsf20to40", str "lcz" ++ w.1],
          edges := e2 ++ [(str "bsf20to40", str "lcz" ++ w.1, str "best-match (BH missing)")],
          alternatives := winner })

/-- The `built` branch (lines 485-578): sparse LCZ-9 shortcut, then
the BSF ≥ 40 / 20-40 split. -/
def classify_built (p : Params) : Except Unit FlowResult :=
  let BSF := to_num p.BSF
  let SVF := to_num p.SVF
  let t1 := [str "Built-up (BSF ≥10 or ISF ≥10)"]
  let e1 := [(str "start", str "built", str "BSF≥10 or ISF≥10")]
  if ((match BSF with | some b => plt b (pf 20 0) | none => false) &&
      (match SVF with | some s0 => plt (pf 8 1) s0 | none => false)) then
    (best_matches p ALL_CODES 3).map (fun alts =>
      { lcz := str "9",
        trace := t1 ++ [str "BSF < 20 and SVF > 0.8 ⇒ LCZ-9"],
        nodes := [str "start", str "built", str "lcz9"],
        edges := e1 ++ [(str "built", str "lcz9", str "BSF<20 & SVF>0.8")],
        alternatives := alts })
  else if (match BSF with | some b => ple (pf 40 0) b | none => false) then
    classify_bsf40 p
  else
    classify_bsf20to40 p

/-- The `land` branch (lines 580-627): TH keyword rule, TR band rule
(each followed by the water override), AL water rule, then the
land-cover table fallback. -/
def classify_land (p : Params) : Except Unit FlowResult :=
  let t1 := [str "Land-cover branch (BSF <10 and ISF <10)"]
  let e1 := [(str "start", str "land", str "BSF<10 & ISF<10")]
  let TR := to_num p.TR
  let AL := to_num p.AL
  let TH := p.TH
  let landFallback : Except Unit FlowResult :=
    pickWinner (best_matches p [str "A", str "B", str "C", str "D", str "G"] 3)
      (fun w winner =>
        { lcz := w.1,
          trace := t1 ++ [str "Insufficient TH/TR/AL — fell back to land-cover table scoring."],
          nodes := [str "start", str "land", str "lcz" ++ w.1],
          edges := e1 ++ [(str "land", str "lcz" ++ w.1, str "table fallback")],
          alternatives := winner })
  match infer_lcz_from_TH TH with
  | (some code, reason) =>
    let pref := prefer_water_with_AL code AL TR
    let codeF := pref.1
    let reasonF := if pref.1 ≠ code then pref.2.getD reason else reason
    (best_matches p [str "A", str "B", str "C", str "D", str "G"] 3).map (fun alts =>
      { lcz := codeF,
        trace := t1 ++ [reasonF],
        nodes := [str "start", str "land", str "lcz" ++ codeF],
        edges := e1 ++ [(str "land", str "lcz" ++ codeF, str "TH rule")],
        alternatives := alts })
  | (none, _) =>
    match infer_lcz_from_TR TR with
    | (some code, reason) =>
      let pref := prefer_water_with_AL code AL TR
      let codeF := pref.1
      let reasonF := if pref.1 ≠ code then pref.2.getD reason else reason
      (best_matches p [str "A", str "B", str "C", str "D", str "G"] 3).map (fun alts =>
        { lcz := codeF,
          trace := t1 ++ [reasonF],
          nodes := [str "start", str "land", str "lcz" ++ codeF],
          edges := e1 ++ [(str "land", str "lcz" ++ codeF, str "TR rule")],
          alternatives := alts })
    | (none, _) =>
      match AL with
      | some a =>
        if ple (pf 2 2) a && ple a (pf 10 2) then
          (best_matches p [str "A", str "B", str "C", str "D"] 3).map (fun alts =>
            { lcz := str "G",
              trace := t1 ++ [str "AL=" ++ fmtFloat a ++ str " within 0.02–0.10 (water-like) ⇒ LCZ-G"],
              nodes := [str "start", str "land", str "lczG"],
              edges := e1 ++ [(str "land", str "lczG", str "AL rule")],
              alternatives := alts })
        else landFallback
      | none => landFallback

/-- Embedding of `classify_flow` (lines 465-627).  The source is one
function whose nested branches are the decision-tree nodes; here each
node (`built`, `bsf40`, `midrise123435`, `bsf20to40`,
`lowrise_branch`, `land`) is a separate definition, with the
`trace.append`/`mark` calls accumulated along each path spelled as
list literals at every `return` site. -/
def classify_flow (p : Params) : Except Unit FlowResult :=
  if builtCond p then classify_built p else classify_land p

theorem value_in_spec_ok (v : Option PyFloat) (s : Str) (pr : Option Bounds)
    (h : parse_bounds (some s) = .ok pr) : ∃ r, value_in_spec v s = .ok r := by
  unfold value_in_spec
  rw [h]
  rcases pr with _ | ⟨lo, hi, k⟩
  · exact ⟨_, rfl⟩
  · rcases v with _ | v
    · exact ⟨_, rfl⟩
    · cases k <;> exact ⟨_, rfl⟩

theorem range_distance_ok (v : Option PyFloat) (s : Str) (pr : Option Bounds)
    (h : parse_bounds (some s) = .ok pr) : ∃ r, range_distance v s = .ok r := by
  unfold range_distance
  rw [h]
  rcases pr with _ | ⟨lo, hi, k⟩
  · exact ⟨_, rfl⟩
  · rcases v with _ | v
    · exact ⟨_, rfl⟩
    · cases k <;> dsimp only
      case rng => split
                  · exact ⟨_, rfl⟩
                  · split <;> exact ⟨_, rfl⟩
      all_goals exact ⟨_, rfl⟩

/-- `claim C2 (corrected), counterexample`: `range_distance` on an
absent value under the `na` spec `"-"` returns the fixed penalty 0.5,
not 0: the source checks `value is None` before it checks the `na`
kind, so the "`na` kind → 0 for every value including an absent value"
part of the claim is false. -/
theorem claim2_counterexample :
    range_distance none (str "-") = .ok (pf 5 1) ∧
    parse_bounds (some (str "-")) = .ok (some (none, none, BKind.na)) ∧
    pf 5 1 ≠ pf 0 0 := by
  refine ⟨by decide, by decide, by decide⟩

/-- `claim C2 (corrected), amended`: `range_distance` returns 0 when
the spec is unparseable (a `None` parse), returns 0 for an `na`-kind
spec when the value is PRESENT, and returns exactly 0.5 whenever the
value is absent and the spec parses — for every parsed kind,
`na` included. -/
theorem claim2_amended :
    (∀ v s, parse_bounds (some s) = .ok none → range_distance v s = .ok (pf 0 0)) ∧
    (∀ s v lo hi, parse_bounds (some s) = .ok (some (lo, hi, BKind.na)) →
      range_distance (some v) s = .ok (pf 0 0)) ∧
    (∀ s pr, parse_bounds (some s) = .ok (some pr) → range_distance none s = .ok (pf 5 1)) := by
  refine ⟨?_, ?_, ?_⟩
  · intro v s h
    unfold range_distance
    rw [h]
  · intro s v lo hi h
    unfold range_distance
    rw [h]
  · intro s pr h
    unfold range_distance
    rw [h]

/-- Witness for `claim2_amended` at concrete inputs: the unparseable
spec `"xyz"`, the `na` spec `"-"` with a present value, and the range
spec `"30-45"` with an absent value. -/
theorem claim2_witness :
    range_distance (some (pf 3 0)) (str "xyz") = .ok (pf 0 0) ∧
    range_distance (some (pf 3 0)) (str "-") = .ok (pf 0 0) ∧
    range_distance none (str "30-45") = .ok (pf 5 1) :=
  ⟨claim2_amended.1 (some (pf 3 0)) (str "xyz") (by decide),
   claim2_amended.2.1 (str "-") (pf 3 0) none none (by decide),
   claim2_amended.2.2 (str "30-45") (some (pf 30 0), some (pf 45 0), BKind.rng) (by decide)⟩

/-- `claim C3 (corrected), counterexample`: `parse_bounds(">=abc")`
raises a `ValueError` (the `float(s[2:])` call is not inside a
`try`/`except`), it does not return the null result. -/
theorem claim3_counterexample :
    parse_bounds (some (str ">=abc")) = .error () ∧
    (Except.error () : Except Unit (Option Bounds)) ≠ .ok none := by
  refine ⟨by decide, by decide⟩

/-- `claim C3 (corrected), amended`: `parse_bounds` never raises —
returning null on any parse failure — for every spec string that,
after stripping and glyph normalization, does not start with `>` or
`<`; with a leading comparator, a non-numeric remainder raises instead
of returning null (`parse_bounds(">=abc")` raises). -/
theorem claim3_amended :
    parse_bounds (some (str ">=abc")) = .error () ∧
    (∀ s, (str ">").isPrefixOf (normalizeGlyphs (stripStr s)) = false →
      (str "<").isPrefixOf (normalizeGlyphs (stripStr s)) = false →
      ∃ pr, parse_bounds (some s) = .ok pr) := by
  constructor
  · decide
  · intro s hgt hlt
    have hge : (str ">=").isPrefixOf (normalizeGlyphs (stripStr s)) = false := by
      cases hn : normalizeGlyphs (stripStr s) with
      | nil => rfl
      | cons c cs =>
        rw [hn] at hgt
        simp only [str, List.isPrefixOf, Bool.and_true] at hgt
        simp only [str, List.isPrefixOf]
        rw [hgt]
        exact Bool.false_and _
    have hle : (str "<=").isPrefixOf (normalizeGlyphs (stripStr s)) = false := by
      cases hn : normalizeGlyphs (stripStr s) with
      | nil => rfl
      | cons c cs =>
        rw [hn] at hlt
        simp only [str, List.isPrefixOf, Bool.and_true] at hlt
        simp only [str, List.isPrefixOf]
        rw [hlt]
        exact Bool.false_and _
    simp only [parse_bounds]
    split
    · exact ⟨_, rfl⟩
    · simp only [hge, hle, hgt, hlt]
      simp only [Bool.false_eq_true, if_false]
      split
      · exact ⟨_, rfl⟩
      · split <;> exact ⟨_, rfl⟩

/-- Witness for `claim3_amended`: the keyword-free spec `"hello"`
parses without raising. -/
theorem claim3_witness : ∃ pr, parse_bounds (some (str "hello")) = .ok pr :=
  claim3_amended.2 (str "hello") (by decide) (by decide)

/-- `claim C9 (confirmed)`: `value_in_spec` is true for every value —
including an absent one — under an `na`-kind spec; false for an
absent value under every other parsed kind; and on the spec `"30-45"`
it accepts 35, rejects 50 and rejects an absent value. -/
theorem claim9_theorem :
    (∀ s v lo hi, parse_bounds (some s) = .ok (some (lo, hi, BKind.na)) →
      value_in_spec v s = .ok (some true)) ∧
    (∀ s lo hi k, parse_bounds (some s) = .ok (some (lo, hi, k)) → k ≠ BKind.na →
      value_in_spec none s = .ok (some false)) ∧
    value_in_spec (some (pf 35 0)) (str "30-45") = .ok (some true) ∧
    value_in_spec (some (pf 50 0)) (str "30-45") = .ok (some false) ∧
    value_in_spec none (str "30-45") = .ok (some false) := by
  refine ⟨?_, ?_, by decide, by decide, by decide⟩
  · intro s v lo hi h
    unfold value_in_spec
    rw [h]
    rcases v with _ | v
    · simp
    · rfl
  · intro s lo hi k h hk
    unfold value_in_spec
    rw [h]
    simp [hk]

/-- Witness for `claim9_theorem` at concrete inputs: the `na` spec
`"-"` with an absent value, and the range spec `"30-45"` with an
absent value. -/
theorem claim9_witness :
    value_in_spec none (str "-") = .ok (some true) ∧
    value_in_spec none (str "30-45") = .ok (some false) :=
  ⟨claim9_theorem.1 (str "-") none none none (by decide),
   claim9_theorem.2.1 (str "30-45") (some (pf 30 0)) (some (pf 45 0)) BKind.rng
     (by decide) (by decide)⟩

/-- `true` iff the computation did not raise. -/
def okB {α : Type} : Except Unit α → Bool
  | .ok _ => true
  | .error _ => false

theorem okB_iff {α : Type} (x : Except Unit α) : okB x = true ↔ ∃ r, x = .ok r := by
  cases x <;> simp [okB]

/-- Every range spec in the reference table parses without raising. -/
theorem table_specs_ok :
    LCZ_TABLE.all (fun ce => ce.2.all (fun e => okB (parse_bounds (some e.2)))) = true := by
  decide

theorem score_step_ok (p : Params) (acc : Nat × PyFloat) (e : PKey × Str) (pr : Option Bounds)
    (hpr : parse_bounds (some e.2) = .ok pr) : ∃ acc2, score_step p acc e = .ok acc2 := by
  unfold score_step
  split
  · exact ⟨_, rfl⟩
  · obtain ⟨r1, h1⟩ := value_in_spec_ok (to_num (pget p e.1)) e.2 pr hpr
    obtain ⟨r2, h2⟩ := range_distance_ok (to_num (pget p e.1)) e.2 pr hpr
    rw [h1, h2]
    exact ⟨_, rfl⟩

theorem score_entries_ok (p : Params) :
    ∀ (entries : List (PKey × Str)) (acc : Nat × PyFloat),
      (∀ e ∈ entries, ∃ pr, parse_bounds (some e.2) = .ok pr) →
      ∃ r, score_entries p acc entries = .ok r := by
  intro entries
  induction entries with
  | nil => exact fun acc _ => ⟨acc, rfl⟩
  | cons e rest ih =>
    intro acc hall
    obtain ⟨pr, hpr⟩ := hall e (List.mem_cons_self e rest)
    obtain ⟨acc2, hacc2⟩ := score_step_ok p acc e pr hpr
    simp only [score_entries]
    rw [hacc2]
    exact ih acc2 (fun e' he' => hall e' (List.mem_cons_of_mem e he'))

theorem lookup_of_mem_keys {β : Type} :
    ∀ (l : List (Str × β)) (c : Str), c ∈ l.map Prod.fst →
      ∃ v, List.lookup c l = some v ∧ (c, v) ∈ l := by
  intro l
  induction l with
  | nil => simp
  | cons kv rest ih =>
    intro c hc
    by_cases h : c = kv.1
    · refine ⟨kv.2, ?_, ?_⟩
      · simp [List.lookup, h]
      · rw [h]
        exact List.mem_cons_self _ _
    · have hmem : c ∈ rest.map Prod.fst := by
        have hc' : c ∈ kv.1 :: rest.map Prod.fst := by
          rw [List.map_cons] at hc
          exact hc
        rcases List.mem_cons.mp hc' with h1 | h1
        · exact absurd h1 h
        · exact h1
      obtain ⟨v, hv, hvm⟩ := ih c hmem
      refine ⟨v, ?_, List.mem_cons_of_mem kv hvm⟩
      have hne : (c == kv.1) = false := beq_false_of_ne h
      simp [List.lookup, hne, hv]

theorem score_class_ok (p : Params) (c : Str) (hc : c ∈ ALL_CODES) :
    ∃ r, score_class p c = .ok r := by
  obtain ⟨entries, hl, hmem⟩ := lookup_of_mem_keys LCZ_TABLE c hc
  unfold score_class
  rw [hl]
  apply score_entries_ok
  intro e he
  have h1 := List.all_eq_true.mp table_specs_ok _ hmem
  have h2 := List.all_eq_true.mp h1 _ he
  exact (okB_iff _).mp h2

theorem score_list_ok (p : Params) :
    ∀ (cands : List Str), (∀ c ∈ cands, c ∈ ALL_CODES) →
      ∃ l, score_list p cands = .ok l ∧ l.length = cands.length := by
  intro cands
  induction cands with
  | nil => exact fun _ => ⟨[], rfl, rfl⟩
  | cons c rest ih =>
    intro hall
    obtain ⟨r, hr⟩ := score_class_ok p c (hall c (List.mem_cons_self c rest))
    obtain ⟨l, hl, hlen⟩ := ih (fun c' hc' => hall c' (List.mem_cons_of_mem c hc'))
    refine ⟨(c, r) :: l, ?_, by simp [hlen]⟩
    simp only [score_list]
    rw [hr, hl]

theorem best_matches_ok (p : Params) (cands : List Str) (k : Nat)
    (h : ∀ c ∈ cands, c ∈ ALL_CODES) :
    ∃ l, best_matches p cands k = .ok l ∧ l.length = min k cands.length := by
  obtain ⟨sl, hsl, hlen⟩ := score_list_ok p cands h
  unfold best_matches
  rw [hsl]
  refine ⟨_, rfl, ?_⟩
  rw [List.length_take, (List.perm_insertionSort ScoreLE sl).length_eq, hlen]

theorem strLe_total : ∀ s t : Str, strLe s t = true ∨ strLe t s = true := by
  intro s
  induction s with
  | nil => exact fun t => Or.inl rfl
  | cons a as ih =>
    intro t
    cases t with
    | nil => exact Or.inr rfl
    | cons b bs =>
      by_cases hab : a = b
      · subst hab
        simpa [strLe] using ih bs
      · rcases lt_trichotomy a b with h | h | h
        · left
          simp [strLe, hab, h]
        · exact absurd h hab
        · right
          simp [strLe, Ne.symm hab, h]

theorem strLe_trans : ∀ s t u : Str, strLe s t = true → strLe t u = true → strLe s u = true := by
  intro s
  induction s with
  | nil => intro t u _ _; rfl
  | cons a as ih =>
    intro t u h1 h2
    cases t with
    | nil => simp [strLe] at h1
    | cons b bs =>
      cases u with
      | nil => simp [strLe] at h2
      | cons c cs =>
        by_cases hab : a = b <;> by_cases hbc : b = c
        · subst hab; subst hbc
          simp only [strLe, if_pos rfl] at h1 h2 ⊢
          exact ih bs cs h1 h2
        · subst hab
          simp only [strLe, if_pos rfl] at h1
          simp only [strLe, if_neg hbc, decide_eq_true_eq] at h2
          simp [strLe, show a ≠ c from hbc, h2]
        · subst hbc
          simp only [strLe, if_neg hab, decide_eq_true_eq] at h1
          simp [strLe, show a ≠ b from hab, h1]
        · simp only [strLe, if_neg hab, decide_eq_true_eq] at h1
          simp only [strLe, if_neg hbc, decide_eq_true_eq] at h2
          have hac : a < c := lt_trans h1 h2
          simp [strLe, show a ≠ c from ne_of_lt hac, hac]

/-- The sort key as a proposition: hits descending, then distance
(by value) ascending, then code ascending. -/
theorem scoreKeyLE_iff (a b : Scored) :
    scoreKeyLE a b = true ↔
      (b.2.1 < a.2.1 ∨ (a.2.1 = b.2.1 ∧
        (toRat a.2.2 < toRat b.2.2 ∨ (toRat a.2.2 = toRat b.2.2 ∧ strLe a.1 b.1 = true)))) := by
  unfold scoreKeyLE
  rw [Bool.or_eq_true, Bool.and_eq_true, Bool.or_eq_true, Bool.and_eq_true]
  rw [decide_eq_true_eq, decide_eq_true_eq, toRat_lt_iff, toRat_eq_iff]

theorem scoreKeyLE_total (a b : Scored) : scoreKeyLE a b = true ∨ scoreKeyLE b a = true := by
  rw [scoreKeyLE_iff, scoreKeyLE_iff]
  rcases Nat.lt_trichotomy a.2.1 b.2.1 with h | h | h
  · right; left; exact h
  · rcases lt_trichotomy (toRat a.2.2) (toRat b.2.2) with h2 | h2 | h2
    · left; right; exact ⟨h, Or.inl h2⟩
    · rcases strLe_total a.1 b.1 with h3 | h3
      · left; right; exact ⟨h, Or.inr ⟨h2, h3⟩⟩
      · right; right; exact ⟨h.symm, Or.inr ⟨h2.symm, h3⟩⟩
    · right; right; exact ⟨h.symm, Or.inl h2⟩
  · left; left; exact h

theorem scoreKeyLE_trans (a b c : Scored) (h1 : scoreKeyLE a b = true)
    (h2 : scoreKeyLE b c = true) : scoreKeyLE a c = true := by
  rw [scoreKeyLE_iff] at h1 h2 ⊢
  rcases h1 with h1 | ⟨h1e, h1d⟩
  · rcases h2 with h2 | ⟨h2e, _⟩
    · left; omega
    · left; omega
  · rcases h2 with h2 | ⟨h2e, h2d⟩
    · left; omega
    · right
      refine ⟨h1e.trans h2e, ?_⟩
      rcases h1d with h1d | ⟨h1d, h1s⟩
      · rcases h2d with h2d | ⟨h2d, _⟩
        · left; linarith
        · left; linarith [h1d]
      · rcases h2d with h2d | ⟨h2d, h2s⟩
        · left; linarith [h2d]
        · right; exact ⟨h1d.trans h2d, strLe_trans _ _ _ h1s h2s⟩

instance : IsTotal Scored ScoreLE := ⟨fun a b => scoreKeyLE_total a b⟩

instance : IsTrans Scored ScoreLE := ⟨fun a b c => scoreKeyLE_trans a b c⟩

/-- `claim C6 (confirmed)`: whatever `best_matches` returns is ordered
by the sort key — hits descending first, then distance ascending, then
code ascending (lexicographic) — and in particular any two returned
candidates with different hit counts have the higher-hits one first,
regardless of distance.  Determinism on identical inputs is immediate:
`best_matches` is a pure function of its arguments. -/
theorem claim6_theorem :
    ∀ (p : Params) (cands : List Str) (k : Nat) (l : List Scored),
      best_matches p cands k = .ok l →
      l.Pairwise ScoreLE ∧ l.Pairwise (fun a b => a.2.1 ≠ b.2.1 → b.2.1 < a.2.1) := by
  intro p cands k l h
  unfold best_matches at h
  cases hs : score_list p cands with
  | error e => rw [hs] at h; exact absurd h (by simp)
  | ok scored =>
    rw [hs] at h
    have hl : l = (List.insertionSort ScoreLE scored).take k := by
      injection h with h'
      exact h'.symm
    subst hl
    have hsorted := List.sorted_insertionSort ScoreLE scored
    have h1 : ((List.insertionSort ScoreLE scored).take k).Pairwise ScoreLE :=
      hsorted.sublist (List.take_sublist k _)
    refine ⟨h1, h1.imp ?_⟩
    intro a b hab hne
    rcases (scoreKeyLE_iff a b).mp hab with h2 | ⟨h2, _⟩
    · exact h2
    · exact absurd h2 hne

/-- Witness for `claim6_theorem`: the concrete ranking of candidates
`{A, G}` on an empty parameter set (`G` scores 4 hits, `A` scores 3,
both at distance 5.5). -/
theorem claim6_witness :
    ([(str "G", 4, pf 550000000000 11), (str "A", 3, pf 550000000000 11)] :
        List Scored).Pairwise ScoreLE ∧
    ([(str "G", 4, pf 550000000000 11), (str "A", 3, pf 550000000000 11)] :
        List Scored).Pairwise (fun a b => a.2.1 ≠ b.2.1 → b.2.1 < a.2.1) :=
  claim6_theorem {} [str "A", str "G"] 2
    [(str "G", 4, pf 550000000000 11), (str "A", 3, pf 550000000000 11)] (by decide)

/-- Parameters reaching the definitive midrise LCZ-2 terminal:
BSF 45, BH 20, BHD 8. -/
def exMidrise : Params := { BSF := some (pf 45 0), BH := some (pf 20 0), BHD := some (pf 8 0) }

/-- The spec's sparse-shortcut test input: BSF 5, SVF 0.85, ISF 0. -/
def exSparse : Params := { BSF := some (pf 5 0), SVF := some (pf 85 2), ISF := some (pf 0 0) }

/-- A land-branch input whose TH keyword already maps to water:
TH "water", AL 0.05, TR 1. -/
def exWater : Params := { TH := some (str "water"), AL := some (pf 5 2), TR := some (pf 1 0) }

/-- `claim C1 (corrected), counterexample`: at the definitive midrise
LCZ-2 terminal (BSF 45, BH 20, BHD 8), the returned code is `"2"` but
`alternatives[0].code` is `"34"` — the alternatives there are scored
over `{34, 35}` only, so the claimed invariant fails on a definitive
branch. -/
theorem claim1_counterexample :
    (classify_flow exMidrise).toOption.map (fun r => r.lcz) = some (str "2") ∧
    (classify_flow exMidrise).toOption.map
        (fun r => r.alternatives.head?.map (fun a => a.1)) = some (some (str "34")) ∧
    str "34" ≠ str "2" := by
  refine ⟨by decide, by decide, by decide⟩

/-- `claim C4 (corrected), counterexample`: the midrise disambiguation
terminal for LCZ-2 attaches alternatives scored over `{34, 35}` — not
over the claimed `{2, 34, 35}`; the branch's own code is absent from
the scored candidate set. -/
theorem claim4_counterexample :
    (classify_flow exMidrise).toOption.map
        (fun r => (r.lcz, r.alternatives.map (fun a => a.1))) =
      some (str "2", [str "34", str "35"]) ∧
    str "2" ∉ [str "34", str "35"] := by
  refine ⟨by decide, by decide⟩

/-- `claim C5 (corrected), counterexample`: on `{BSF:5, SVF:0.85,
ISF:0}` the classifier returns `"C"`, not `"9"`: since BSF < 10 and
ISF < 10 the start state goes to `land` — exactly as the claim's own
transition rule requires — so the sparse shortcut (which lives inside
the `built` subtree) cannot fire. -/
theorem claim5_counterexample :
    (classify_flow exSparse).toOption.map (fun r => r.lcz) = some (str "C") ∧
    str "C" ≠ str "9" := by
  refine ⟨by decide, by decide⟩

/-- `claim C5 (corrected), amended`: on `{BSF:5, SVF:0.85, ISF:0}` the
start state transitions to `land` (built requires BSF present ≥ 10 or
ISF present ≥ 10), the land fallback scores `{A,B,C,D,G}` and returns
`"C"`; the sparse low-BSF high-SVF shortcut fires only inside the
built branch, e.g. `{BSF:15, SVF:0.85}` → `"9"`. -/
theorem claim5_amended :
    (classify_flow exSparse).toOption.map (fun r => r.lcz) = some (str "C") ∧
    (classify_flow exSparse).toOption.map (fun r => r.edges.head?) =
      some (some (str "start", str "land", str "BSF<10 & ISF<10")) ∧
    (classify_flow exSparse).toOption.map (fun r => r.edges.getLast?.map (fun e => e.2.2)) =
      some (some (str "table fallback")) ∧
    (classify_flow { BSF := some (pf 15 0), SVF := some (pf 85 2) }).toOption.map
        (fun r => r.lcz) = some (str "9") := by
  refine ⟨by decide, by decide, by decide, by decide⟩

/-- `claim C7 (corrected), counterexample`: with TH "water", AL 0.05
and TR 1 the override condition holds, yet the recorded trace reason
is the original TH reason, not the override reason: the source only
replaces the reason when the override CHANGES the code, and here the
TH candidate is already "G". -/
theorem claim7_counterexample :
    (classify_flow exWater).toOption.map (fun r => (r.lcz, r.trace.getLast?)) =
      some (str "G", some (str "TH = \x27water\x27 → LCZ-G")) ∧
    str "TH = \x27water\x27 → LCZ-G" ≠
      str "AL=0.05 (0.02–0.10) and TR≈1 ⇒ LCZ-G (water)" := by
  refine ⟨by decide, by decide⟩

/-- When the water-override's TR test holds (TR present in
[0.5, 1.5]) and the TR band rule produced a candidate, that candidate
is already "G": [0.5, 1.5] is exactly the water band of `TR_BANDS`, no
earlier band contains any such TR, so `find?` selects the water
band. -/
theorem tr_near_one_band_is_water (tr : PyFloat) (c rsn : Str)
    (h : infer_lcz_from_TR (some tr) = (some c, rsn))
    (hn : trNearOne (some tr) = true) : c = str "G" := by
  have hn' : (ple (pf 5 1) tr && ple tr (pf 15 1)) = true := hn
  rw [Bool.and_eq_true] at hn'
  obtain ⟨h05, h15⟩ := hn'
  have h15q : toRat tr ≤ toRat (pf 15 1) := by
    have h' := h15
    rw [toRat_le_iff] at h'
    exact h'
  have hA : ple (pf 75 1) tr = false := by
    rw [Bool.eq_false_iff]
    intro hh
    rw [toRat_le_iff] at hh
    have hcmp : toRat (pf 15 1) < toRat (pf 75 1) := by norm_num [toRat, pf]
    linarith
  have hB : ple (pf 45 1) tr = false := by
    rw [Bool.eq_false_iff]
    intro hh
    rw [toRat_le_iff] at hh
    have hcmp : toRat (pf 15 1) < toRat (pf 45 1) := by norm_num [toRat, pf]
    linarith
  have hC : ple (pf 35 1) tr = false := by
    rw [Bool.eq_false_iff]
    intro hh
    rw [toRat_le_iff] at hh
    have hcmp : toRat (pf 15 1) < toRat (pf 35 1) := by norm_num [toRat, pf]
    linarith
  have hD : ple (pf 25 1) tr = false := by
    rw [Bool.eq_false_iff]
    intro hh
    rw [toRat_le_iff] at hh
    have hcmp : toRat (pf 15 1) < toRat (pf 25 1) := by norm_num [toRat, pf]
    linarith
  simp only [infer_lcz_from_TR, TR_BANDS, List.find?, hA, hB, hC, hD, h05, h15,
    Bool.false_and, Bool.true_and] at h
  rw [Prod.mk.injEq] at h
  have h1 := h.1
  injection h1 with h2
  exact h2.symm

/-- `claim C7 (corrected), amended`: in the land branch, after the TH
rule produces candidate `c` with reason `rsn`: (i) when the override
condition holds (AL present in [0.02,0.10] and TR absent or in
[0.5,1.5]) and `c` is not already "G", the final code is "G" and the
recorded reason is the override reason; (ii) when the condition holds
but `c` is already "G", the code stays "G" and the recorded reason
remains the original TH reason (the source replaces the reason only
when the override changes the code); (iii) when the override does not
fire, code and reason are the TH rule's.  Parts (iv)-(v) cover the TR
band rule site (source lines 603-612): (iv) when the TH rule produced
no candidate, the TR band rule produced candidate `c`, and the
override condition holds, then TR lies in [0.5, 1.5] — exactly the
water band — so `c` is already "G" and the recorded reason stays the
TR rule's reason, never the override reason; (v) when the override
does not fire, code and reason are the TR rule's. -/
theorem claim7_amended :
    (∀ (p : Params) (th c rsn : Str) (a : PyFloat),
      builtCond p = false →
      p.TH = some th →
      infer_lcz_from_TH (some th) = (some c, rsn) →
      p.AL = some a →
      (ple (pf 2 2) a && ple a (pf 10 2)) = true →
      trNearOne p.TR = true →
      c ≠ str "G" →
      (classify_flow p).toOption.map (fun r => (r.lcz, r.trace.getLast?)) =
        some (str "G",
          some (str "AL=" ++ fmtFloat a ++ str " (0.02–0.10) and TR≈1 ⇒ LCZ-G (water)"))) ∧
    (∀ (p : Params) (th rsn : Str) (a : PyFloat),
      builtCond p = false →
      p.TH = some th →
      infer_lcz_from_TH (some th) = (some (str "G"), rsn) →
      p.AL = some a →
      (ple (pf 2 2) a && ple a (pf 10 2)) = true →
      trNearOne p.TR = true →
      (classify_flow p).toOption.map (fun r => (r.lcz, r.trace.getLast?)) =
        some (str "G", some rsn)) ∧
    (∀ (p : Params) (th c rsn : Str),
      builtCond p = false →
      p.TH = some th →
      infer_lcz_from_TH (some th) = (some c, rsn) →
      prefer_water_with_AL c p.AL p.TR = (c, none) →
      (classify_flow p).toOption.map (fun r => (r.lcz, r.trace.getLast?)) =
        some (c, some rsn)) ∧
    (∀ (p : Params) (rsn0 : Str) (tr : PyFloat) (c rsn : Str) (a : PyFloat),
      builtCond p = false →
      infer_lcz_from_TH p.TH = (none, rsn0) →
      p.TR = some tr →
      infer_lcz_from_TR (some tr) = (some c, rsn) →
      p.AL = some a →
      (ple (pf 2 2) a && ple a (pf 10 2)) = true →
      trNearOne (some tr) = true →
      c = str "G" ∧
      (classify_flow p).toOption.map (fun r => (r.lcz, r.trace.getLast?)) =
        some (str "G", some rsn)) ∧
    (∀ (p : Params) (rsn0 : Str) (tr : PyFloat) (c rsn : Str),
      builtCond p = false →
      infer_lcz_from_TH p.TH = (none, rsn0) →
      p.TR = some tr →
      infer_lcz_from_TR (some tr) = (some c, rsn) →
      prefer_water_with_AL c p.AL (some tr) = (c, none) →
      (classify_flow p).toOption.map (fun r => (r.lcz, r.trace.getLast?)) =
        some (c, some rsn)) := by
  refine ⟨?_, ?_, ?_, ?_, ?_⟩
  · intro p th c rsn a hBuilt hTH hInfer hAL ha hTR hcG
    obtain ⟨l, hbm, _⟩ := best_matches_ok p [str "A", str "B", str "C", str "D", str "G"] 3
      (by decide)
    simp only [classify_flow]
    rw [hBuilt, if_neg Bool.false_ne_true]
    simp only [classify_land, to_num]
    rw [hTH, hInfer]
    simp only [prefer_water_with_AL]
    rw [hAL]
    simp only [ha, hTR, if_true]
    rw [if_pos (Ne.symm hcG)]
    rw [hbm]
    simp only [Except.map, Except.toOption, Option.map_some']
    rfl
  · intro p th rsn a hBuilt hTH hInfer hAL ha hTR
    obtain ⟨l, hbm, _⟩ := best_matches_ok p [str "A", str "B", str "C", str "D", str "G"] 3
      (by decide)
    simp only [classify_flow]
    rw [hBuilt, if_neg Bool.false_ne_true]
    simp only [classify_land, to_num]
    rw [hTH, hInfer]
    simp only [prefer_water_with_AL]
    rw [hAL]
    simp only [ha, hTR, if_true]
    rw [if_neg (fun h => h rfl)]
    rw [hbm]
    simp only [Except.map, Except.toOption, Option.map_some']
    rfl
  · intro p th c rsn hBuilt hTH hInfer hPref
    obtain ⟨l, hbm, _⟩ := best_matches_ok p [str "A", str "B", str "C", str "D", str "G"] 3
      (by decide)
    simp only [classify_flow]
    rw [hBuilt, if_neg Bool.false_ne_true]
    simp only [classify_land, to_num]
    rw [hTH, hInfer]
    dsimp only
    rw [hPref]
    rw [if_neg (fun h => h rfl)]
    rw [hbm]
    simp only [Except.map, Except.toOption, Option.map_some']
    rfl
  · intro p rsn0 tr c rsn a hBuilt hTH0 hTRv hInfer hAL ha hTR
    have hcG : c = str "G" := tr_near_one_band_is_water tr c rsn hInfer hTR
    subst hcG
    refine ⟨rfl, ?_⟩
    obtain ⟨l, hbm, _⟩ := best_matches_ok p [str "A", str "B", str "C", str "D", str "G"] 3
      (by decide)
    simp only [classify_flow]
    rw [hBuilt, if_neg Bool.false_ne_true]
    simp only [classify_land, to_num]
    rw [hTRv, hTH0]
    dsimp only
    rw [hInfer]
    simp only [prefer_water_with_AL]
    rw [hAL]
    simp only [ha, hTR, if_true]
    rw [if_neg (fun hx => hx rfl)]
    rw [hbm]
    simp only [Except.map, Except.toOption, Option.map_some']
    rfl
  · intro p rsn0 tr c rsn hBuilt hTH0 hTRv hInfer hPref
    obtain ⟨l, hbm, _⟩ := best_matches_ok p [str "A", str "B", str "C", str "D", str "G"] 3
      (by decide)
    simp only [classify_flow]
    rw [hBuilt, if_neg Bool.false_ne_true]
    simp only [classify_land, to_num]
    rw [hTRv, hTH0]
    dsimp only
    rw [hInfer]
    dsimp only
    rw [hPref]
    rw [if_neg (fun hx => hx rfl)]
    rw [hbm]
    simp only [Except.map, Except.toOption, Option.map_some']
    rfl

/-- The claim's own concrete override example: TH "dense tree",
AL 0.05, TR 1. -/
def exDenseTree : Params :=
  { TH := some (str "dense tree"), AL := some (pf 5 2), TR := some (pf 1 0) }

/-- A parameter set that reaches the TR band rule under the override
condition: no TH, AL 0.05, TR 1. -/
def exTROnly : Params := { AL := some (pf 5 2), TR := some (pf 1 0) }

/-- Witness for `claim7_amended` at two concrete inputs: part (i) on
the claim's own example (TH "dense tree", AL 0.05, TR 1 → final code
"G" with the override reason in the trace), and part (iv) on the TR
rule (no TH, AL 0.05, TR 1 → the TR band candidate is already "G" and
the recorded reason stays the TR rule's reason). -/
theorem claim7_witness :
    ((classify_flow exDenseTree).toOption.map (fun r => (r.lcz, r.trace.getLast?)) =
      some (str "G", some (str "AL=0.05 (0.02–0.10) and TR≈1 ⇒ LCZ-G (water)"))) ∧
    (str "G" = str "G" ∧
     (classify_flow exTROnly).toOption.map (fun r => (r.lcz, r.trace.getLast?)) =
       some (str "G", some (str "TR = 1 in TR ≈ 1 → (water) → LCZ-G"))) :=
  ⟨(claim7_amended.1 exDenseTree
      (str "dense tree") (str "A") (str "TH = \x27dense tree\x27 → LCZ-A") (pf 5 2)
      (by decide) rfl (by decide) rfl (by decide) (by decide) (by decide)).trans (by decide),
   claim7_amended.2.2.2.1 exTROnly (str "TH not provided") (pf 1 0) (str "G")
     (str "TR = 1 in TR ≈ 1 → (water) → LCZ-G") (pf 5 2)
     (by decide) (by decide) rfl (by decide) rfl (by decide) (by decide)⟩

/-- The candidate set (and `topk`) each return site of `classify_flow`
passes to `best_matches`, keyed by the final decision edge (its source
node and label), read off the source return sites: the midrise
definitive terminals score the two-code complement of the chosen code
(lines 507-529), the midrise BHD/BHV-missing fallback scores
`["2","34","35"]` (line 524), the BH-missing fallbacks score
`["1","2","3","34","35"]` under `bsf40` (line 535) and
`["4","5","6","8","8B"]` under `bsf20to40` (line 576), the low-rise
fallbacks score `["6","8","8B"]` (lines 566, 572), the land TH/TR rule
sites and the land table fallback score `["A","B","C","D","G"]` (lines
592, 608, 625), the AL rule site scores `["A","B","C","D"]` (line
617), and every remaining (simple definitive) terminal scores the full
16-code table (`best_matches(params)` with the default candidate set
and `topk=3`). -/
def siteCands (f lbl : Str) : List Str × Nat :=
  if lbl = str "BHD<9" then ([str "34", str "35"], 2)
  else if lbl = str "BHV>145" then ([str "2", str "35"], 2)
  else if lbl = str "BHV≤145" then ([str "2", str "34"], 2)
  else if lbl = str "table-fallback" then ([str "2", str "34", str "35"], 3)
  else if lbl = str "best-match (BH missing)" then
    (if f = str "bsf40" then ([str "1", str "2", str "3", str "34", str "35"], 3)
     else ([str "4", str "5", str "6", str "8", str "8B"], 3))
  else if lbl = str "best-match" ∨ lbl = str "best-match (SCR/FAR missing)" then
    ([str "6", str "8", str "8B"], 3)
  else if lbl = str "TH rule" ∨ lbl = str "TR rule" ∨ lbl = str "table fallback" then
    ([str "A", str "B", str "C", str "D", str "G"], 3)
  else if lbl = str "AL rule" then ([str "A", str "B", str "C", str "D"], 3)
  else (ALL_CODES, 3)

theorem map_site_alts {fn : List Scored → FlowResult} {bm : Except Unit (List Scored)}
    {r : FlowResult} (h : Except.map fn bm = .ok r)
    (halts : ∀ alts, (fn alts).alternatives = alts) :
    bm = .ok r.alternatives := by
  cases bm with
  | error e => exact absurd h (by simp [Except.map])
  | ok alts =>
    simp only [Except.map] at h
    injection h with h'
    subst h'
    rw [halts]

theorem pickWinner_site_alts {w : Except Unit (List Scored)}
    {g : Scored → List Scored → FlowResult} {r : FlowResult}
    (h : pickWinner w g = .ok r)
    (halts : ∀ w0 winner, (g w0 winner).alternatives = winner) :
    w = .ok r.alternatives := by
  unfold pickWinner at h
  cases w with
  | error e => exact absurd h (by simp [Except.bind])
  | ok winner =>
    simp only [Except.bind] at h
    cases winner with
    | nil => exact absurd h (by simp)
    | cons w0 rest =>
      simp only [List.head?] at h
      injection h with h'
      subst h'
      rw [halts]

theorem map_site_label {fn : List Scored → FlowResult} {bm : Except Unit (List Scored)}
    {r : FlowResult} {f0 t0 lbl : Str} {fC lC : Str}
    (h : Except.map fn bm = .ok r)
    (hl : r.edges.getLast? = some (f0, t0, lbl))
    (hf : ∀ alts, ∃ t1, ((fn alts).edges).getLast? = some (fC, t1, lC)) :
    f0 = fC ∧ lbl = lC := by
  cases bm with
  | error e => exact absurd h (by simp [Except.map])
  | ok alts =>
    simp only [Except.map] at h
    injection h with h'
    subst h'
    obtain ⟨t1, ht⟩ := hf alts
    rw [ht] at hl
    injection hl with h2
    exact ⟨(congrArg Prod.fst h2).symm, (congrArg (fun e => e.2.2) h2).symm⟩

theorem pickWinner_site_label {w : Except Unit (List Scored)}
    {g : Scored → List Scored → FlowResult} {r : FlowResult} {f0 t0 lbl : Str} {fC lC : Str}
    (h : pickWinner w g = .ok r)
    (hl : r.edges.getLast? = some (f0, t0, lbl))
    (hg : ∀ w0 winner, ∃ t1, ((g w0 winner).edges).getLast? = some (fC, t1, lC)) :
    f0 = fC ∧ lbl = lC := by
  unfold pickWinner at h
  cases w with
  | error e => exact absurd h (by simp [Except.bind])
  | ok winner =>
    simp only [Except.bind] at h
    cases winner with
    | nil => exact absurd h (by simp)
    | cons w0 rest =>
      simp only [List.head?] at h
      injection h with h'
      subst h'
      obtain ⟨t1, ht⟩ := hg w0 (w0 :: rest)
      rw [ht] at hl
      injection hl with h2
      exact ⟨(congrArg Prod.fst h2).symm, (congrArg (fun e => e.2.2) h2).symm⟩

theorem classify_midrise_alts (p : Params) (r : FlowResult) (f0 t0 lbl : Str)
    (h : classify_midrise p = .ok r)
    (hl : r.edges.getLast? = some (f0, t0, lbl)) :
    best_matches p (siteCands f0 lbl).1 (siteCands f0 lbl).2 = .ok r.alternatives := by
  simp only [classify_midrise, to_num] at h
  repeat' split at h
  all_goals first
    | (obtain ⟨rfl, rfl⟩ := map_site_label h hl (fun alts => ⟨_, rfl⟩)
       exact map_site_alts h (fun alts => rfl))
    | (obtain ⟨rfl, rfl⟩ := pickWinner_site_label h hl (fun w0 winner => ⟨_, rfl⟩)
       exact pickWinner_site_alts h (fun w0 winner => rfl))

theorem classify_bsf40_alts (p : Params) (r : FlowResult) (f0 t0 lbl : Str)
    (h : classify_bsf40 p = .ok r)
    (hl : r.edges.getLast? = some (f0, t0, lbl)) :
    best_matches p (siteCands f0 lbl).1 (siteCands f0 lbl).2 = .ok r.alternatives := by
  simp only [classify_bsf40, to_num] at h
  repeat' split at h
  all_goals first
    | exact classify_midrise_alts p r f0 t0 lbl h hl
    | (obtain ⟨rfl, rfl⟩ := map_site_label h hl (fun alts => ⟨_, rfl⟩)
       exact map_site_alts h (fun alts => rfl))
    | (obtain ⟨rfl, rfl⟩ := pickWinner_site_label h hl (fun w0 winner => ⟨_, rfl⟩)
       exact pickWinner_site_alts h (fun w0 winner => rfl))

theorem classify_lowrise_alts (p : Params) (r : FlowResult) (f0 t0 lbl : Str)
    (h : classify_lowrise p = .ok r)
    (hl : r.edges.getLast? = some (f0, t0, lbl)) :
    best_matches p (siteCands f0 lbl).1 (siteCands f0 lbl).2 = .ok r.alternatives := by
  simp only [classify_lowrise, to_num] at h
  repeat' split at h
  all_goals first
    | (obtain ⟨rfl, rfl⟩ := map_site_label h hl (fun alts => ⟨_, rfl⟩)
       exact map_site_alts h (fun alts => rfl))
    | (obtain ⟨rfl, rfl⟩ := pickWinner_site_label h hl (fun w0 winner => ⟨_, rfl⟩)
       exact pickWinner_site_alts h (fun w0 winner => rfl))

theorem classify_bsf20to40_alts (p : Params) (r : FlowResult) (f0 t0 lbl : Str)
    (h : classify_bsf20to40 p = .ok r)
    (hl : r.edges.getLast? = some (f0, t0, lbl)) :
    best_matches p (siteCands f0 lbl).1 (siteCands f0 lbl).2 = .ok r.alternatives := by
  simp only [classify_bsf20to40, to_num] at h
  repeat' split at h
  all_goals first
    | exact classify_lowrise_alts p r f0 t0 lbl h hl
    | (obtain ⟨rfl, rfl⟩ := map_site_label h hl (fun alts => ⟨_, rfl⟩)
       exact map_site_alts h (fun alts => rfl))
    | (obtain ⟨rfl, rfl⟩ := pickWinner_site_label h hl (fun w0 winner => ⟨_, rfl⟩)
       exact pickWinner_site_alts h (fun w0 winner => rfl))

theorem classify_built_alts (p : Params) (r : FlowResult) (f0 t0 lbl : Str)
    (h : classify_built p = .ok r)
    (hl : r.edges.getLast? = some (f0, t0, lbl)) :
    best_matches p (siteCands f0 lbl).1 (siteCands f0 lbl).2 = .ok r.alternatives := by
  simp only [classify_built, to_num] at h
  repeat' split at h
  all_goals first
    | exact classify_bsf40_alts p r f0 t0 lbl h hl
    | exact classify_bsf20to40_alts p r f0 t0 lbl h hl
    | (obtain ⟨rfl, rfl⟩ := map_site_label h hl (fun alts => ⟨_, rfl⟩)
       exact map_site_alts h (fun alts => rfl))

theorem classify_land_alts (p : Params) (r : FlowResult) (f0 t0 lbl : Str)
    (h : classify_land p = .ok r)
    (hl : r.edges.getLast? = some (f0, t0, lbl)) :
    best_matches p (siteCands f0 lbl).1 (siteCands f0 lbl).2 = .ok r.alternatives := by
  simp only [classify_land, to_num] at h
  repeat' split at h
  all_goals first
    | (obtain ⟨rfl, rfl⟩ := map_site_label h hl (fun alts => ⟨_, rfl⟩)
       exact map_site_alts h (fun alts => rfl))
    | (obtain ⟨rfl, rfl⟩ := pickWinner_site_label h hl (fun w0 winner => ⟨_, rfl⟩)
       exact pickWinner_site_alts h (fun w0 winner => rfl))

/-- `claim C4 (corrected), amended`: for every input and every
terminal path, the attached ranked alternatives are exactly the
`best_matches` result over that return site's own candidate set
(`siteCands`, keyed by the final decision edge): the definitive
midrise terminals score the two-code complement of the chosen code
({34,35} for LCZ-2, {2,35} for LCZ-34, {2,34} for LCZ-35); only the
BHD/BHV-missing fallback of the midrise node scores {2,34,35}; the
simple definitive terminals (9, 1, 3, 4, 5, 6, 8, 8B) score the full
16-code table; the fallback terminals score their originating
candidate sets ({1,2,3,34,35} under bsf40, {4,5,6,8,8B} under
bsf20to40, {6,8,8B} at the low-rise fallbacks, {A,B,C,D,G} at the land
table fallback); and the land TH/TR rule sites score {A,B,C,D,G}, the
AL rule site {A,B,C,D}. -/
theorem claim4_amended :
    ∀ (p : Params) (r : FlowResult) (f0 t0 lbl : Str),
      classify_flow p = .ok r →
      r.edges.getLast? = some (f0, t0, lbl) →
      best_matches p (siteCands f0 lbl).1 (siteCands f0 lbl).2 = .ok r.alternatives := by
  intro p r f0 t0 lbl h hl
  simp only [classify_flow] at h
  split at h
  · exact classify_built_alts p r f0 t0 lbl h hl
  · exact classify_land_alts p r f0 t0 lbl h hl

/-- Witness for `claim4_amended` at the concrete midrise input BSF 45,
BH 20, BHD 8 (the LCZ-2 terminal): the alternatives are the
`best_matches` result over the complement set `{34, 35}`. -/
theorem claim4_witness :
    best_matches exMidrise
        (siteCands (str "midrise123435") (str "BHD<9")).1
        (siteCands (str "midrise123435") (str "BHD<9")).2 =
      .ok (FlowResult.mk (str "2")
        [str "Built-up (BSF ≥10 or ISF ≥10)", str "BSF ≥ 40 → \x7b1,2,3,34,35\x7d",
         str "Decide among LCZ-2 / LCZ-34 / LCZ-35 using BHD and BHV",
         str "BHD=8.0 < 9 ⇒ LCZ-2"]
        [str "start", str "built", str "bsf40", str "midrise123435", str "lcz2"]
        [(str "start", str "built", str "BSF≥10 or ISF≥10"),
         (str "built", str "bsf40", str "BSF≥40"),
         (str "bsf40", str "midrise123435", str "10≤BH<25"),
         (str "midrise123435", str "lcz2", str "BHD<9")]
        [(str "34", 2, pf 1900000000 8), (str "35", 2, pf 1900000000 8)]).alternatives :=
  claim4_amended exMidrise _ (str "midrise123435") (str "lcz2") (str "BHD<9")
    (by decide) (by decide)

theorem map_site_ok (p : Params) (cands : List Str) (k : Nat) (f : List Scored → FlowResult)
    (h : ∀ c ∈ cands, c ∈ ALL_CODES) :
    okB (Except.map f (best_matches p cands k)) = true := by
  obtain ⟨l, hl, _⟩ := best_matches_ok p cands k h
  rw [hl]
  rfl

theorem pickWinner_ok (p : Params) (cands : List Str) (k : Nat)
    (g : Scored → List Scored → FlowResult)
    (h : ∀ c ∈ cands, c ∈ ALL_CODES) (hk : 0 < k) (hc : cands ≠ []) :
    okB (pickWinner (best_matches p cands k) g) = true := by
  obtain ⟨l, hl, hlen⟩ := best_matches_ok p cands k h
  rw [pickWinner, hl]
  cases l with
  | nil =>
    exfalso
    have hpos : 0 < min k cands.length := lt_min hk (List.length_pos.mpr hc)
    rw [← hlen] at hpos
    simp at hpos
  | cons w rest => rfl

theorem classify_midrise_ok (p : Params) : okB (classify_midrise p) = true := by
  simp only [classify_midrise, to_num]
  repeat' split
  all_goals first
    | exact map_site_ok p _ _ _ (by decide)
    | exact pickWinner_ok p _ _ _ (by decide) (by decide) (by decide)

theorem classify_bsf40_ok (p : Params) : okB (classify_bsf40 p) = true := by
  simp only [classify_bsf40, to_num]
  repeat' split
  all_goals first
    | exact classify_midrise_ok p
    | exact map_site_ok p _ _ _ (by decide)
    | exact pickWinner_ok p _ _ _ (by decide) (by decide) (by decide)

theorem classify_lowrise_ok (p : Params) : okB (classify_lowrise p) = true := by
  simp only [classify_lowrise, to_num]
  repeat' split
  all_goals first
    | exact map_site_ok p _ _ _ (by decide)
    | exact pickWinner_ok p _ _ _ (by decide) (by decide) (by decide)

theorem classify_bsf20to40_ok (p : Params) : okB (classify_bsf20to40 p) = true := by
  simp only [classify_bsf20to40, to_num]
  repeat' split
  all_goals first
    | exact classify_lowrise_ok p
    | exact map_site_ok p _ _ _ (by decide)
    | exact pickWinner_ok p _ _ _ (by decide) (by decide) (by decide)

theorem classify_built_ok (p : Params) : okB (classify_built p) = true := by
  simp only [classify_built, to_num]
  repeat' split
  all_goals first
    | exact classify_bsf40_ok p
    | exact classify_bsf20to40_ok p
    | exact map_site_ok p _ _ _ (by decide)

theorem classify_land_ok (p : Params) : okB (classify_land p) = true := by
  simp only [classify_land, to_num]
  repeat' split
  all_goals first
    | exact map_site_ok p _ _ _ (by decide)
    | exact pickWinner_ok p _ _ _ (by decide) (by decide) (by decide)

theorem classify_flow_isOk (p : Params) : okB (classify_flow p) = true := by
  simp only [classify_flow]
  split
  · exact classify_built_ok p
  · exact classify_land_ok p

/-- `claim C8 (confirmed)`: the classifier is total over the declared
`ParameterSet` type — for every parameter set whose numeric fields are
numbers or absent and whose TH field is text or absent, `classify_flow`
returns a result and never raises: every branch has an explicit
absent-parameter path that degrades to a narrower rule or a scored
fallback, and every reference-table spec parses, so the scoring
fallbacks cannot raise either. -/
theorem claim8_theorem : ∀ p : Params, ∃ r, classify_flow p = .ok r :=
  fun p => (okB_iff _).mp (classify_flow_isOk p)

/-- Witness for `claim8_theorem` at the empty parameter set. -/
theorem claim8_witness : ∃ r, classify_flow ({} : Params) = .ok r :=
  claim8_theorem {}

/-- The edge labels of the scoring-fallback return sites of
`classify_flow` (every other return site carries a rule label). -/
def fallbackLabels : List Str :=
  [str "table-fallback", str "best-match (BH missing)", str "best-match",
   str "best-match (SCR/FAR missing)", str "table fallback"]

theorem pickWinner_inv {w : Except Unit (List Scored)} {g : Scored → List Scored → FlowResult}
    (hg : ∀ w0 winner, (g w0 winner).lcz = w0.1 ∧ (g w0 winner).alternatives = winner)
    (r : FlowResult) (h : pickWinner w g = .ok r) :
    r.alternatives.head?.map (fun a => a.1) = some r.lcz := by
  unfold pickWinner at h
  cases w with
  | error e => exact absurd h (by simp [Except.bind])
  | ok winner =>
    simp only [Except.bind] at h
    cases winner with
    | nil => exact absurd h (by simp)
    | cons w0 rest =>
      simp only [List.head?] at h
      injection h with h'
      subst h'
      obtain ⟨h1, h2⟩ := hg w0 (w0 :: rest)
      rw [h1, h2]
      rfl

theorem map_leaf_label {f : List Scored → FlowResult} {bm : Except Unit (List Scored)}
    {r : FlowResult} {f0 t0 lbl : Str} {lblC : Str}
    (h : Except.map f bm = .ok r)
    (hl : r.edges.getLast? = some (f0, t0, lbl))
    (hf : ∀ alts, ((f alts).edges.getLast?).map (fun e => e.2.2) = some lblC) :
    lbl = lblC := by
  cases bm with
  | error e => exact absurd h (by simp [Except.map])
  | ok alts =>
    simp only [Except.map] at h
    injection h with h'
    subst h'
    have h3 := hf alts
    rw [hl] at h3
    simp only [Option.map_some', Option.some.injEq] at h3
    exact h3

theorem classify_midrise_fb (p : Params) (r : FlowResult) (f0 t0 lbl : Str)
    (h : classify_midrise p = .ok r)
    (hl : r.edges.getLast? = some (f0, t0, lbl)) (hm : lbl ∈ fallbackLabels) :
    r.alternatives.head?.map (fun a => a.1) = some r.lcz := by
  simp only [classify_midrise, to_num] at h
  repeat' split at h
  all_goals first
    | exact pickWinner_inv (fun w0 winner => ⟨rfl, rfl⟩) r h
    | (rw [map_leaf_label h hl (fun alts => rfl)] at hm; dsimp only at hm; exact absurd hm (by decide))

theorem classify_bsf40_fb (p : Params) (r : FlowResult) (f0 t0 lbl : Str)
    (h : classify_bsf40 p = .ok r)
    (hl : r.edges.getLast? = some (f0, t0, lbl)) (hm : lbl ∈ fallbackLabels) :
    r.alternatives.head?.map (fun a => a.1) = some r.lcz := by
  simp only [classify_bsf40, to_num] at h
  repeat' split at h
  all_goals first
    | exact classify_midrise_fb p r f0 t0 lbl h hl hm
    | exact pickWinner_inv (fun w0 winner => ⟨rfl, rfl⟩) r h
    | (rw [map_leaf_label h hl (fun alts => rfl)] at hm; dsimp only at hm; exact absurd hm (by decide))

theorem classify_lowrise_fb (p : Params) (r : FlowResult) (f0 t0 lbl : Str)
    (h : classify_lowrise p = .ok r)
    (hl : r.edges.getLast? = some (f0, t0, lbl)) (hm : lbl ∈ fallbackLabels) :
    r.alternatives.head?.map (fun a => a.1) = some r.lcz := by
  simp only [classify_lowrise, to_num] at h
  repeat' split at h
  all_goals first
    | exact pickWinner_inv (fun w0 winner => ⟨rfl, rfl⟩) r h
    | (rw [map_leaf_label h hl (fun alts => rfl)] at hm; dsimp only at hm; exact absurd hm (by decide))

theorem classify_bsf20to40_fb (p : Params) (r : FlowResult) (f0 t0 lbl : Str)
    (h : classify_bsf20to40 p = .ok r)
    (hl : r.edges.getLast? = some (f0, t0, lbl)) (hm : lbl ∈ fallbackLabels) :
    r.alternatives.head?.map (fun a => a.1) = some r.lcz := by
  simp only [classify_bsf20to40, to_num] at h
  repeat' split at h
  all_goals first
    | exact classify_lowrise_fb p r f0 t0 lbl h hl hm
    | exact pickWinner_inv (fun w0 winner => ⟨rfl, rfl⟩) r h
    | (rw [map_leaf_label h hl (fun alts => rfl)] at hm; dsimp only at hm; exact absurd hm (by decide))

theorem classify_built_fb (p : Params) (r : FlowResult) (f0 t0 lbl : Str)
    (h : classify_built p = .ok r)
    (hl : r.edges.getLast? = some (f0, t0, lbl)) (hm : lbl ∈ fallbackLabels) :
    r.alternatives.head?.map (fun a => a.1) = some r.lcz := by
  simp only [classify_built, to_num] at h
  repeat' split at h
  all_goals first
    | exact classify_bsf40_fb p r f0 t0 lbl h hl hm
    | exact classify_bsf20to40_fb p r f0 t0 lbl h hl hm
    | (rw [map_leaf_label h hl (fun alts => rfl)] at hm; dsimp only at hm; exact absurd hm (by decide))

theorem classify_land_fb (p : Params) (r : FlowResult) (f0 t0 lbl : Str)
    (h : classify_land p = .ok r)
    (hl : r.edges.getLast? = some (f0, t0, lbl)) (hm : lbl ∈ fallbackLabels) :
    r.alternatives.head?.map (fun a => a.1) = some r.lcz := by
  simp only [classify_land, to_num] at h
  repeat' split at h
  all_goals first
    | exact pickWinner_inv (fun w0 winner => ⟨rfl, rfl⟩) r h
    | (have hlab : lbl = str "TH rule" := map_leaf_label h hl (fun alts => rfl)
       rw [hlab] at hm
       exact absurd hm (by decide))
    | (have hlab : lbl = str "TR rule" := map_leaf_label h hl (fun alts => rfl)
       rw [hlab] at hm
       exact absurd hm (by decide))
    | (have hlab : lbl = str "AL rule" := map_leaf_label h hl (fun alts => rfl)
       rw [hlab] at hm
       exact absurd hm (by decide))

/-- `claim C1 (corrected), amended`: whenever `classify_flow` falls
back to scoring — the return sites whose final decision edge carries
one of the fallback labels — the returned code is `alternatives[0]`'s
code; on the definitive branches the invariant fails (the attached
alternatives need not contain the returned code at all). -/
theorem claim1_amended :
    ∀ (p : Params) (r : FlowResult) (f0 t0 lbl : Str),
      classify_flow p = .ok r →
      r.edges.getLast? = some (f0, t0, lbl) →
      lbl ∈ fallbackLabels →
      r.alternatives.head?.map (fun a => a.1) = some r.lcz := by
  intro p r f0 t0 lbl h hl hm
  simp only [classify_flow] at h
  split at h
  · exact classify_built_fb p r f0 t0 lbl h hl hm
  · exact classify_land_fb p r f0 t0 lbl h hl hm

/-- Witness for `claim1_amended`: the empty parameter set lands in
the land-cover table fallback, which returns code "G" with "G" at the
head of its alternatives. -/
theorem claim1_witness :
    (FlowResult.mk (str "G")
        [str "Land-cover branch (BSF <10 and ISF <10)",
         str "Insufficient TH/TR/AL — fell back to land-cover table scoring."]
        [str "start", str "land", str "lczG"]
        [(str "start", str "land", str "BSF<10 & ISF<10"),
         (str "land", str "lczG", str "table fallback")]
        [(str "G", 4, pf 550000000000 11), (str "A", 3, pf 550000000000 11),
         (str "B", 3, pf 550000000000 11)]).alternatives.head?.map (fun a => a.1) =
      some (FlowResult.mk (str "G")
        [str "Land-cover branch (BSF <10 and ISF <10)",
         str "Insufficient TH/TR/AL — fell back to land-cover table scoring."]
        [str "start", str "land", str "lczG"]
        [(str "start", str "land", str "BSF<10 & ISF<10"),
         (str "land", str "lczG", str "table fallback")]
        [(str "G", 4, pf 550000000000 11), (str "A", 3, pf 550000000000 11),
         (str "B", 3, pf 550000000000 11)]).lcz :=
  claim1_amended {} _ (str "land") (str "lczG") (str "table fallback")
    (by decide) (by decide) (by decide)

/-- Number of TH entries of a spec list that `score_class` counts as
hits for `p` (the reference table has exactly one TH entry per code). -/
def thBonus (p : Params) : List (PKey × Str) → Nat
  | [] => 0
  | e :: rest => (if e.1 = PKey.TH ∧ th_hit p e.2 then 1 else 0) + thBonus p rest

theorem th_hit_noTH (p : Params) (s : Str) : th_hit { p with TH := none } s = false := rfl

theorem pget_noTH (p : Params) (k : PKey) : pget { p with TH := none } k = pget p k := by
  cases k <;> rfl

theorem score_entries_shift :
    ∀ (entries : List (PKey × Str)) (p : Params) (hi n : Nat) (d : PyFloat),
      score_entries p (hi + n, d) entries =
        (score_entries p (hi, d) entries).map (fun r => (r.1 + n, r.2)) := by
  intro entries
  induction entries with
  | nil => intro p hi n d; simp [score_entries, Except.map, Nat.add_comm]
  | cons e rest ih =>
    intro p hi n d
    simp only [score_entries]
    by_cases he : e.1 = PKey.TH
    · simp only [score_step, if_pos he]
      cases hh : th_hit p e.2
      · simp only [hh, Bool.false_eq_true, if_false]
        exact ih p hi n d
      · simp only [hh, if_true]
        have hx : hi + n + 1 = hi + 1 + n := by omega
        rw [hx]
        exact ih p (hi + 1) n d
    · simp only [score_step, if_neg he]
      cases hv : value_in_spec (to_num (pget p e.1)) e.2 with
      | error err => simp [Except.map]
      | ok inside =>
        cases hd2 : range_distance (to_num (pget p e.1)) e.2 with
        | error err => simp [Except.map]
        | ok dd =>
          by_cases hi2 : inside = some true
          · simp only [hi2, if_pos rfl, if_true]
            have hx : hi + n + 1 = hi + 1 + n := by omega
            rw [hx]
            exact ih p (hi + 1) n (padd d dd)
          · simp only [if_neg hi2]
            exact ih p hi n (padd d dd)

/-- The numeric part of a score does not depend on the TH text: the
hits of `score_class` on `p` split into the hits with TH removed plus
the TH bonus, at identical distance. -/
theorem score_entries_TH_split :
    ∀ (entries : List (PKey × Str)) (p : Params) (d : PyFloat),
      score_entries p (0, d) entries =
        (score_entries { p with TH := none } (0, d) entries).map
          (fun r => (r.1 + thBonus p entries, r.2)) := by
  intro entries
  induction entries with
  | nil => intro p d; simp [score_entries, thBonus, Except.map]
  | cons e rest ih =>
    intro p d
    simp only [score_entries, score_step]
    by_cases he : e.1 = PKey.TH
    · simp only [if_pos he, th_hit_noTH, Bool.false_eq_true, if_false]
      cases hh : th_hit p e.2
      · simp only [hh, Bool.false_eq_true, if_false]
        have hb : thBonus p (e :: rest) = thBonus p rest := by
          simp [thBonus, hh]
        rw [hb]
        exact ih p d
      · simp only [hh, if_true]
        have hb : thBonus p (e :: rest) = 1 + thBonus p rest := by
          simp [thBonus, he, hh]
        rw [hb]
        have hshift := score_entries_shift rest p 0 1 d
        rw [show (0 : Nat) + 1 = 1 from rfl] at hshift
        rw [hshift, ih p d]
        cases hx : score_entries { p with TH := none } (0, d) rest with
        | error err => simp [Except.map]
        | ok r => simp [Except.map, Nat.add_comm, Nat.add_assoc, Nat.add_left_comm]
    · simp only [if_neg he, pget_noTH]
      have hb : thBonus p (e :: rest) = thBonus p rest := by
        simp [thBonus, he]
      rw [hb]
      cases hv : value_in_spec (to_num (pget p e.1)) e.2 with
      | error err => simp [Except.map]
      | ok inside =>
        cases hd2 : range_distance (to_num (pget p e.1)) e.2 with
        | error err => simp [Except.map]
        | ok dd =>
          by_cases hi2 : inside = some true
          · simp only [hi2, if_pos rfl, if_true]
            have hshift := score_entries_shift rest p 0 1 (padd d dd)
            rw [show (0 : Nat) + 1 = 1 from rfl] at hshift
            have hshift2 := score_entries_shift rest { p with TH := none } 0 1 (padd d dd)
            rw [show (0 : Nat) + 1 = 1 from rfl] at hshift2
            rw [hshift, hshift2, ih p (padd d dd)]
            cases hx : score_entries { p with TH := none } (0, padd d dd) rest with
            | error err => simp [Except.map]
            | ok r => simp [Except.map, Nat.add_comm, Nat.add_assoc, Nat.add_left_comm]
          · simp only [if_neg hi2]
            exact ih p (padd d dd)

theorem score_class_TH_split (p : Params) (c : Str) (entries : List (PKey × Str))
    (h : List.lookup c LCZ_TABLE = some entries) :
    score_class p c = (score_class { p with TH := none } c).map
      (fun r => (r.1 + thBonus p entries, r.2)) := by
  unfold score_class
  rw [h]
  exact score_entries_TH_split entries p (pf 0 0)

theorem claim10_aux (p : Params) (c : Str) (entries : List (PKey × Str))
    (hc : c ∈ ALL_CODES)
    (hlk : List.lookup c LCZ_TABLE = some entries)
    (hb : thBonus p entries = 1) :
    ∃ h d, score_class { p with TH := none } c = .ok (h, d) ∧
      score_class p c = .ok (h + 1, d) := by
  obtain ⟨r0, hr0⟩ := score_class_ok { p with TH := none } c hc
  rcases r0 with ⟨h0, d0⟩
  refine ⟨h0, d0, hr0, ?_⟩
  rw [score_class_TH_split p c entries hlk, hr0]
  simp [Except.map, hb]

/-- `claim C10 (confirmed)`: `score_class` matches TH by raw
lower-cased substring containment of the reference spec string inside
the supplied TH text, with no na-normalization — although `"-"` parses
as the unconstrained `na` kind for the numeric parameters (first
conjunct).  Consequently, whenever the TH text contains the character
`"-"`, every one of the twelve codes whose TH spec is `"-"` receives
exactly one extra (TH) hit relative to the same parameters with TH
absent, at identical distance. -/
theorem claim10_theorem :
    parse_bounds (some (str "-")) = .ok (some (none, none, BKind.na)) ∧
    (∀ (p : Params) (t : Str), p.TH = some t → isSubstr (str "-") (lowerStr t) = true →
      ∀ c ∈ [str "1", str "2", str "3", str "34", str "4", str "35", str "5", str "6",
             str "8", str "8B", str "9", str "G"],
        ∃ h d, score_class { p with TH := none } c = .ok (h, d) ∧
          score_class p c = .ok (h + 1, d)) := by
  constructor
  · decide
  · intro p t hTH hsub c hc
    have hne : t.isEmpty = false := by
      cases t with
      | nil => exact absurd hsub (by decide)
      | cons a as => rfl
    have hhit : th_hit p (str "-") = true := by
      unfold th_hit
      rw [hTH]
      dsimp only
      rw [show lowerStr (str "-") = str "-" from rfl]
      rw [hne, hsub]
      rfl
    fin_cases hc
    all_goals exact claim10_aux p _ _ (by decide) rfl (by simp [thBonus, hhit])

/-- Witness for `claim10_theorem`: TH text "semi-arid" (which contains
a dash) gives code "1" exactly one extra hit. -/
theorem claim10_witness :
    ∃ h d, score_class { ({ TH := some (str "semi-arid") } : Params) with TH := none }
        (str "1") = .ok (h, d) ∧
      score_class ({ TH := some (str "semi-arid") } : Params) (str "1") = .ok (h + 1, d) :=
  claim10_theorem.2 { TH := some (str "semi-arid") } (str "semi-arid") rfl (by decide)
    (str "1") (by decide)
